import Mathlib

/-!
# Verification of the FluidSynth reverb engine

Shallow embedding of the reverb core of this repository:

* `fluid_reverb_delay_line`, `fluid_reverb_allpass`, `fluid_reverb_comb`
  (header `fluid_rev_filters.h`, the `std::vector`-based revision that the
  Dattorro and Freeverb models compile against),
* the Lexverb model (`fluid_rev_lexverb.cpp`, the `ap_info`/`dl_info` revision),
* the Dattorro plate model and the Freeverb model (`fluid_rev_dattorro.cpp`),
* the factory `new_fluid_revmodel` (`fluid_rev.cpp`).

Floating-point samples (`float` / `fluid_real_t`) are modelled as exact
rationals `ℚ`; the properties verified here are structural (cursor
arithmetic, read ordering, clamping, state reachability) and survive this
idealisation.  C `int` indices are modelled as `Nat` where the code keeps
them non-negative, and as `Int` where sign matters.  Heap allocation is
modelled as always succeeding unless stated otherwise; `std::vector`
exceptions for non-positive lengths are modelled with `Option`.
-/

namespace Reverb

/-- `FLUID_OK` return code. -/
def FLUID_OK : Int := 0

/-- `FLUID_FAILED` return code. -/
def FLUID_FAILED : Int := -1

/-- `fluid_reverb_allpass_mode` from `fluid_rev_filters.h`. -/
inductive APMode where
  | freeverb
  | schroeder
deriving DecidableEq

/-- `fluid_reverb_delay_line` (vector revision, `src/unnamed/part_000`):
ring buffer `line`, write cursor `line_in`, read cursor `line_out`, the
lexverb cross-feed `coefficient` and the cached `last_output`.  The embedded
`damping` one-pole state is used only by the FDN model and is omitted. -/
structure DelayLine where
  line : List ℚ
  line_in : Nat
  line_out : Nat
  coefficient : ℚ
  last_output : ℚ
deriving DecidableEq

namespace DelayLine

/-- `size()`. -/
def size (d : DelayLine) : Nat := d.line.length

/-- `set_buffer(length)`: throws `std::invalid_argument` for `length <= 0`
(modelled as `none`); otherwise resets both cursors and `last_output` to 0
and resizes the line with `std::vector::resize(length, sample_t())`, which
keeps the existing cells and zero-fills only newly created ones. -/
def set_buffer (n : Int) (d : DelayLine) : Option DelayLine :=
  if n ≤ 0 then none
  else some { d with
    line := d.line.take n.toNat ++ List.replicate (n.toNat - d.line.length) 0,
    line_in := 0,
    line_out := 0,
    last_output := 0 }

/-- `fill_buffer(value)`: overwrite every cell, cursors untouched. -/
def fill_buffer (v : ℚ) (d : DelayLine) : DelayLine :=
  { d with line := d.line.map (fun _ => v) }

/-- `set_positions(in_pos, out_pos)`. -/
def set_positions (in_pos out_pos : Nat) (d : DelayLine) : DelayLine :=
  { d with line_in := in_pos, line_out := out_pos }

/-- `set_single_tap_position(index)`. -/
def set_single_tap_position (i : Nat) (d : DelayLine) : DelayLine :=
  { d with line_in := i, line_out := i }

/-- `read()`: the sample at `line_out`. -/
def read (d : DelayLine) : ℚ := d.line.getD d.line_out 0

/-- `write(value)`: store at `line_out`. -/
def write (v : ℚ) (d : DelayLine) : DelayLine :=
  { d with line := d.line.set d.line_out v }

/-- `advance()`: `++line_out`, wrapping to 0 at `size()`. -/
def advance (d : DelayLine) : DelayLine :=
  { d with line_out := if d.line_out + 1 ≥ d.size then 0 else d.line_out + 1 }

/-- `advance_single_tap()`: advance, then realign `line_in = line_out`. -/
def advance_single_tap (d : DelayLine) : DelayLine :=
  let d1 := d.advance
  { d1 with line_in := d1.line_out }

/-- `set_last_output(value)`. -/
def set_last_output (v : ℚ) (d : DelayLine) : DelayLine :=
  { d with last_output := v }

/-- `process(input)`: read at `line_out`, overwrite with `input`, advance with
wraparound keeping both cursors aligned, cache and return the old sample. -/
def process (input : ℚ) (d : DelayLine) : ℚ × DelayLine :=
  let output := d.read
  let d1 := (d.write input).advance_single_tap
  (output, { d1 with last_output := output })

/-- Run a finite sequence of `process` calls, keeping only the state. -/
def processList (d : DelayLine) (xs : List ℚ) : DelayLine :=
  xs.foldl (fun s x => (s.process x).2) d

end DelayLine

/-! ## Generic block processing

Every model's `processmix` / `processreplace` iterates a per-sample step
over `FLUID_BUFSIZE` samples, either adding into or overwriting the two
output buffers.  Blocks are modelled as lists; the step function returns
the wet stereo pair and the next model state. -/

/-- One block of per-sample processing.  `mix = true` adds into the output
buffers (`processmix`), `mix = false` overwrites them (`processreplace`). -/
def processBlock {S : Type} (step : S → ℚ → ℚ × ℚ × S) (mix : Bool) :
    S → List ℚ → List ℚ → List ℚ → List ℚ × List ℚ × S
  | s, x :: ins, l0 :: Ls, r0 :: Rs =>
      let r := step s x
      let rest := processBlock step mix r.2.2 ins Ls Rs
      ((if mix then l0 + r.1 else r.1) :: rest.1,
        (if mix then r0 + r.2.1 else r.2.1) :: rest.2.1,
        rest.2.2)
  | s, _, _, _ => ([], [], s)

/-! ## Lexverb (`fluid_rev_lexverb.cpp`)

The Lexverb translation unit in this repository represents each stage with
the C structs `ap_info` / `dl_info` (fields `length`, `coef`, `base`,
`out_ptr`, `in_data`, `out_data`).  Both structs have the same layout and
are modelled by `LexStage`; `length` is `buf.length` and `out_ptr` is the
offset `out_pos` from `base`. -/

/-- `LEX_TRIM` from `fluid_rev_lexverb.cpp`. -/
def LEX_TRIM : ℚ := 7 / 10

/-- `LEX_SCALE_WET_WIDTH` from `fluid_rev_lexverb.cpp`. -/
def LEX_SCALE_WET_WIDTH : ℚ := 1 / 5

/-- One Lexverb stage: an `ap_info` or `dl_info` record. -/
structure LexStage where
  buf : List ℚ
  out_pos : Nat
  coef : ℚ
  in_data : ℚ
  out_data : ℚ
deriving DecidableEq

/-- Modelled from the spec: `all_pass_filter` from `allpass.h`, which is not
under src/.  Per spec §4.2 (SCHROEDER variant, the one Lexverb uses) and
§4.6: read the delayed sample at `out_ptr`, form `v = in_data + bufout·coef`,
output `bufout − v·coef`, write `v` back, advance `out_ptr` with wraparound,
and cache the output in `out_data`. -/
def all_pass_filter (ap : LexStage) : ℚ × LexStage :=
  let bufout := ap.buf.getD ap.out_pos 0
  let v := ap.in_data + bufout * ap.coef
  let output := bufout - v * ap.coef
  (output,
    { ap with
      buf := ap.buf.set ap.out_pos v,
      out_pos := if ap.out_pos + 1 ≥ ap.buf.length then 0 else ap.out_pos + 1,
      out_data := output })

/-- Modelled from the spec: `delay` from `delay.h`, which is not under src/.
Per spec §4.1: read the delayed sample at `out_ptr`, write `in_data` there,
advance `out_ptr` with wraparound, cache the output in `out_data`. -/
def lex_delay (dl : LexStage) : ℚ × LexStage :=
  let output := dl.buf.getD dl.out_pos 0
  (output,
    { dl with
      buf := dl.buf.set dl.out_pos dl.in_data,
      out_pos := if dl.out_pos + 1 ≥ dl.buf.length then 0 else dl.out_pos + 1,
      out_data := output })

/-- `fluid_revmodel_lexverb` state (the `ap_info`/`dl_info` revision): the
six parameters, the `valid` flag, the shared damping tail states, ten
allpass stages and the two cross-delays. -/
structure Lexverb where
  roomsize : ℚ
  damp : ℚ
  level : ℚ
  wet1 : ℚ
  wet2 : ℚ
  width : ℚ
  valid : Bool
  damp_state_left : ℚ
  damp_state_right : ℚ
  ap0 : LexStage
  ap1 : LexStage
  ap2 : LexStage
  ap3 : LexStage
  ap4 : LexStage
  ap5 : LexStage
  ap6 : LexStage
  ap7 : LexStage
  ap8 : LexStage
  ap9 : LexStage
  dl0 : LexStage
  dl1 : LexStage
deriving DecidableEq

/-- `LEX_REVERB_PARMS` from `fluid_rev_lexverb.h`: millisecond length and
coefficient for AP0..AP9, then dl0 (left-into-right) and dl1
(right-into-left). -/
def LEX_REVERB_PARMS : List (ℚ × ℚ) :=
  [(50.00, 0.750), (44.50, 0.720), (37.37, 0.691), (24.85, 0.649),
    (19.31, 0.662), (49.60, 0.750), (45.13, 0.720), (35.25, 0.691),
    (28.17, 0.649), (15.59, 0.646), (8.71, 0.646), (12.05, 0.666)]

/-- C `float`-to-`int` conversion: truncation toward zero, on the exact
rational modelling the float value. -/
def cTrunc (q : ℚ) : Int := if 0 ≤ q then ⌊q⌋ else -⌊-q⌋

/-- `fluid_lexverb_ms_to_buf_length`: the implicit conversion of
`ms * (sample_rate * (1 / 1000.0f))` to `int` truncates toward zero. -/
def fluid_lexverb_ms_to_buf_length (ms sample_rate : ℚ) : Int :=
  cTrunc (ms * (sample_rate * (1 / 1000)))

/-- One stage as produced by `fluid_lexverb_setup_blocks` followed by the
`fluid_lexverb_clear_blocks` call at its end: buffer of the computed length,
zero-filled, `out_ptr = base + 1`, `coef` from the table, data fields 0. -/
def lexverb_stage_setup (i : Nat) (sample_rate : ℚ) : LexStage :=
  let p := LEX_REVERB_PARMS.getD i (0, 0)
  { buf := List.replicate (fluid_lexverb_ms_to_buf_length p.1 sample_rate).toNat 0,
    out_pos := 1,
    coef := p.2,
    in_data := 0,
    out_data := 0 }

/-- `fluid_lexverb_clear_blocks` on one stage: zero the buffer, reset
`out_ptr` to `base + 1`, zero `in_data` and `out_data`. -/
def lexverb_stage_clear (st : LexStage) : LexStage :=
  { st with
    buf := st.buf.map (fun _ => 0),
    out_pos := 1,
    in_data := 0,
    out_data := 0 }

/-- `fluid_lexverb_clear_blocks`: clear every stage and both damping tails. -/
def fluid_lexverb_clear_blocks (s : Lexverb) : Lexverb :=
  { s with
    ap0 := lexverb_stage_clear s.ap0, ap1 := lexverb_stage_clear s.ap1,
    ap2 := lexverb_stage_clear s.ap2, ap3 := lexverb_stage_clear s.ap3,
    ap4 := lexverb_stage_clear s.ap4, ap5 := lexverb_stage_clear s.ap5,
    ap6 := lexverb_stage_clear s.ap6, ap7 := lexverb_stage_clear s.ap7,
    ap8 := lexverb_stage_clear s.ap8, ap9 := lexverb_stage_clear s.ap9,
    dl0 := lexverb_stage_clear s.dl0, dl1 := lexverb_stage_clear s.dl1,
    damp_state_left := 0,
    damp_state_right := 0 }

/-- `fluid_lexverb_setup_blocks` (allocation modelled as succeeding),
including its trailing `fluid_lexverb_clear_blocks`. -/
def fluid_lexverb_setup_blocks (s : Lexverb) (sample_rate : ℚ) : Lexverb :=
  { s with
    ap0 := lexverb_stage_setup 0 sample_rate, ap1 := lexverb_stage_setup 1 sample_rate,
    ap2 := lexverb_stage_setup 2 sample_rate, ap3 := lexverb_stage_setup 3 sample_rate,
    ap4 := lexverb_stage_setup 4 sample_rate, ap5 := lexverb_stage_setup 5 sample_rate,
    ap6 := lexverb_stage_setup 6 sample_rate, ap7 := lexverb_stage_setup 7 sample_rate,
    ap8 := lexverb_stage_setup 8 sample_rate, ap9 := lexverb_stage_setup 9 sample_rate,
    dl0 := lexverb_stage_setup 10 sample_rate, dl1 := lexverb_stage_setup 11 sample_rate,
    damp_state_left := 0,
    damp_state_right := 0 }

/-- `fluid_lexverb_update`: recompute `wet1` / `wet2` from the stored
parameters. -/
def fluid_lexverb_update (s : Lexverb) : Lexverb :=
  let roomscale : ℚ := 1 / 2 + 1 / 2 * s.roomsize
  let wet : ℚ := s.level * roomscale / (1 + s.width * LEX_SCALE_WET_WIDTH)
  { s with
    wet1 := wet * (s.width / 2 + 1 / 2),
    wet2 := wet * ((1 - s.width) / 2) }

/-- The left half of `fluid_lexverb_process_sample`: AP0 → AP1 → (+ the dl1
cross-delay, latched from `ap[9].out_data`) → AP2 → AP3 → AP4.  Returns the
raw left sample and the state with these stages advanced. -/
def lexverb_left_chain (s : Lexverb) (input : ℚ) : ℚ × Lexverb :=
  let r0 := all_pass_filter { s.ap0 with in_data := input * LEX_TRIM }
  let r1 := all_pass_filter { s.ap1 with in_data := r0.1 }
  let d1in : LexStage := { s.dl1 with in_data := s.ap9.out_data }
  let rd1 := lex_delay d1in
  let r2 := all_pass_filter { s.ap2 with in_data := r1.1 + rd1.1 * d1in.coef }
  let r3 := all_pass_filter { s.ap3 with in_data := r2.1 }
  let r4 := all_pass_filter { s.ap4 with in_data := r3.1 }
  (r4.1,
    { s with
      ap0 := r0.2, ap1 := r1.2, ap2 := r2.2, ap3 := r3.2, ap4 := r4.2,
      dl1 := rd1.2 })

/-- The right half of `fluid_lexverb_process_sample`: AP5 → AP6 → (+ the dl0
cross-delay, latched from `ap[4].out_data` of the state the left chain
already updated this sample) → AP7 → AP8 → AP9. -/
def lexverb_right_chain (s : Lexverb) (input : ℚ) : ℚ × Lexverb :=
  let r5 := all_pass_filter { s.ap5 with in_data := input * LEX_TRIM }
  let r6 := all_pass_filter { s.ap6 with in_data := r5.1 }
  let d0in : LexStage := { s.dl0 with in_data := s.ap4.out_data }
  let rd0 := lex_delay d0in
  let r7 := all_pass_filter { s.ap7 with in_data := r6.1 + rd0.1 * d0in.coef }
  let r8 := all_pass_filter { s.ap8 with in_data := r7.1 }
  let r9 := all_pass_filter { s.ap9 with in_data := r8.1 }
  (r9.1,
    { s with
      ap5 := r5.2, ap6 := r6.2, ap7 := r7.2, ap8 := r8.2, ap9 := r9.2,
      dl0 := rd0.2 })

/-- `fluid_lexverb_process_sample`: left chain, then right chain on the
updated state, then the shared one-pole damping tail.  Returns
`(out_left, out_right, next state)`. -/
def fluid_lexverb_process_sample (s : Lexverb) (input : ℚ) : ℚ × ℚ × Lexverb :=
  let l := lexverb_left_chain s input
  let r := lexverb_right_chain l.2 input
  let out_left := if 0 < s.damp
    then l.1 * (1 - s.damp) + s.damp_state_left * s.damp else l.1
  let out_right := if 0 < s.damp
    then r.1 * (1 - s.damp) + s.damp_state_right * s.damp else r.1
  (out_left, out_right,
    { r.2 with damp_state_left := out_left, damp_state_right := out_right })

/-- One loop iteration of `processmix` / `processreplace`: process the
sample and apply the `wet1` / `wet2` stereo mix. -/
def lexverb_step (s : Lexverb) (x : ℚ) : ℚ × ℚ × Lexverb :=
  let r := fluid_lexverb_process_sample s x
  (r.1 * s.wet1 + r.2.1 * s.wet2, r.2.1 * s.wet1 + r.1 * s.wet2, r.2.2)

/-- `fluid_revmodel_lexverb::processmix`: a no-op unless `valid`. -/
def lexverb_processmix (s : Lexverb) (ins Ls Rs : List ℚ) :
    List ℚ × List ℚ × Lexverb :=
  if s.valid then processBlock lexverb_step true s ins Ls Rs else (Ls, Rs, s)

/-- `fluid_revmodel_lexverb::processreplace`: a no-op unless `valid`. -/
def lexverb_processreplace (s : Lexverb) (ins Ls Rs : List ℚ) :
    List ℚ × List ℚ × Lexverb :=
  if s.valid then processBlock lexverb_step false s ins Ls Rs else (Ls, Rs, s)

/-- `fluid_revmodel_lexverb::reset`: a no-op unless `valid`. -/
def lexverb_reset (s : Lexverb) : Lexverb :=
  if s.valid then fluid_lexverb_clear_blocks s else s

/-- `fluid_clip(val, min, max)` from `fluid_sys.h`. -/
def fluid_clip (v lo hi : ℚ) : ℚ := if v < lo then lo else if v > hi then hi else v

/-- `FLUID_REVMODEL_SET_ROOMSIZE` mask bit. -/
def FLUID_REVMODEL_SET_ROOMSIZE : Nat := 1

/-- `FLUID_REVMODEL_SET_DAMPING` mask bit. -/
def FLUID_REVMODEL_SET_DAMPING : Nat := 2

/-- `FLUID_REVMODEL_SET_WIDTH` mask bit. -/
def FLUID_REVMODEL_SET_WIDTH : Nat := 4

/-- `FLUID_REVMODEL_SET_LEVEL` mask bit. -/
def FLUID_REVMODEL_SET_LEVEL : Nat := 8

/-- `fluid_revmodel_lexverb::set`: clamp and store each selected parameter,
then recompute the derived coefficients. -/
def lexverb_set (s : Lexverb) (mask : Nat)
    (roomsize damping width level : ℚ) : Lexverb :=
  let s := if mask &&& FLUID_REVMODEL_SET_ROOMSIZE ≠ 0
    then { s with roomsize := fluid_clip roomsize 0 1 } else s
  let s := if mask &&& FLUID_REVMODEL_SET_DAMPING ≠ 0
    then { s with damp := fluid_clip damping 0 1 } else s
  let s := if mask &&& FLUID_REVMODEL_SET_WIDTH ≠ 0
    then { s with width := fluid_clip width 0 100 } else s
  let s := if mask &&& FLUID_REVMODEL_SET_LEVEL ≠ 0
    then { s with level := fluid_clip level 0 1 } else s
  fluid_lexverb_update s

/-- `fluid_revmodel_lexverb::samplerate_change`: fail for non-positive
rates, otherwise rebuild every stage at the new rate (allocation modelled
as succeeding), set `valid` and report `FLUID_OK`. -/
def lexverb_samplerate_change (s : Lexverb) (sample_rate : ℚ) : Int × Lexverb :=
  if sample_rate ≤ 0 then (FLUID_FAILED, s)
  else (FLUID_OK, { fluid_lexverb_setup_blocks s sample_rate with valid := true })

/-- `fluid_revmodel_lexverb::fluid_revmodel_lexverb(sample_rate)`: every
member zeroed; for a positive rate the stages are built and `valid` is set
(buffer allocation modelled as succeeding). -/
def lexverb_ctor (sample_rate : ℚ) : Lexverb :=
  let empty : LexStage := { buf := [], out_pos := 0, coef := 0, in_data := 0, out_data := 0 }
  let base : Lexverb :=
    { roomsize := 0, damp := 0, level := 0, wet1 := 0, wet2 := 0, width := 0,
      valid := false, damp_state_left := 0, damp_state_right := 0,
      ap0 := empty, ap1 := empty, ap2 := empty, ap3 := empty, ap4 := empty,
      ap5 := empty, ap6 := empty, ap7 := empty, ap8 := empty, ap9 := empty,
      dl0 := empty, dl1 := empty }
  if sample_rate ≤ 0 then base
  else { fluid_lexverb_setup_blocks base sample_rate with valid := true }

/-- A small concrete valid Lexverb state used for counterexamples: every
stage has a 3-sample zero buffer at position 1, `coef = 99` marks the stages
as untouched by any setup call. -/
def lexverb_demo_stage : LexStage :=
  { buf := [0, 0, 0], out_pos := 1, coef := 99, in_data := 0, out_data := 0 }

/-- A concrete valid Lexverb state built from `lexverb_demo_stage`. -/
def lexverb_demo : Lexverb :=
  { roomsize := 0, damp := 0, level := 0, wet1 := 0, wet2 := 0, width := 0,
    valid := true, damp_state_left := 0, damp_state_right := 0,
    ap0 := lexverb_demo_stage, ap1 := lexverb_demo_stage,
    ap2 := lexverb_demo_stage, ap3 := lexverb_demo_stage,
    ap4 := lexverb_demo_stage, ap5 := lexverb_demo_stage,
    ap6 := lexverb_demo_stage, ap7 := lexverb_demo_stage,
    ap8 := lexverb_demo_stage, ap9 := lexverb_demo_stage,
    dl0 := lexverb_demo_stage, dl1 := lexverb_demo_stage }

/-! ## Allpass and comb filters (`fluid_rev_filters.h`, vector revision) -/

/-- `fluid_reverb_allpass`: a mode selector, feedback coefficient, shared
delay line and cached output. -/
structure Allpass where
  mode : APMode
  feedback : ℚ
  delay : DelayLine
  last_output : ℚ
deriving DecidableEq

/-- `fluid_reverb_delay_line::set_buffer` for the lengths the reverb models
compute, which are always ≥ 1: resize keeping old cells, zero-filling new
ones, cursors and cached output reset (equal to `set_buffer` on the same
positive length). -/
def DelayLine.set_buffer_pos (n : Nat) (d : DelayLine) : DelayLine :=
  { d with
    line := d.line.take n ++ List.replicate (n - d.line.length) 0,
    line_in := 0,
    line_out := 0,
    last_output := 0 }

namespace Allpass

/-- `fluid_reverb_allpass::set_buffer(size)`. -/
def set_buffer (n : Nat) (a : Allpass) : Allpass :=
  { a with delay := a.delay.set_buffer_pos n, last_output := 0 }

/-- `fluid_reverb_allpass::fill_buffer(value)`. -/
def fill_buffer (v : ℚ) (a : Allpass) : Allpass :=
  { a with delay := a.delay.fill_buffer v }

/-- `fluid_reverb_allpass::set_index(index)`. -/
def set_index (i : Nat) (a : Allpass) : Allpass :=
  { a with delay := a.delay.set_single_tap_position i }

/-- `fluid_reverb_allpass::set_last_output(value)`. -/
def set_last_output (v : ℚ) (a : Allpass) : Allpass :=
  { a with last_output := v }

/-- `fluid_reverb_allpass::has_buffer()`. -/
def has_buffer (a : Allpass) : Bool := decide (a.delay.line ≠ [])

/-- `fluid_reverb_allpass::process(input)`: read `bufout`, form
`delay_in = input + bufout·feedback`; FREEVERB mode outputs
`bufout − input`, SCHROEDER mode outputs `bufout − delay_in·feedback`;
write `delay_in` back, advance, cache the output. -/
def process (input : ℚ) (a : Allpass) : ℚ × Allpass :=
  let bufout := a.delay.read
  let delay_in := input + bufout * a.feedback
  let output := match a.mode with
    | .freeverb => bufout - input
    | .schroeder => bufout - delay_in * a.feedback
  (output,
    { a with
      delay := ((a.delay.write delay_in).advance_single_tap),
      last_output := output })

end Allpass

/-- `fluid_reverb_comb`: feedback comb with a one-pole lowpass in the
feedback path. -/
structure Comb where
  feedback : ℚ
  filterstore : ℚ
  damp1 : ℚ
  damp2 : ℚ
  delay : DelayLine
deriving DecidableEq

namespace Comb

/-- `fluid_reverb_comb::set_buffer(size)`. -/
def set_buffer (n : Nat) (c : Comb) : Comb :=
  { c with delay := c.delay.set_buffer_pos n, filterstore := 0 }

/-- `fluid_reverb_comb::fill_buffer(value)`. -/
def fill_buffer (v : ℚ) (c : Comb) : Comb :=
  { c with delay := c.delay.fill_buffer v }

/-- `fluid_reverb_comb::set_damp(value)`: `damp1 = value`,
`damp2 = 1 − value`. -/
def set_damp (v : ℚ) (c : Comb) : Comb :=
  { c with damp1 := v, damp2 := 1 - v }

/-- `fluid_reverb_comb::set_feedback(value)`. -/
def set_feedback (v : ℚ) (c : Comb) : Comb :=
  { c with feedback := v }

/-- `fluid_reverb_comb::process(input)`: output the delayed sample, run the
one-pole lowpass on it, write `input + filterstore·feedback` back,
advance. -/
def process (input : ℚ) (c : Comb) : ℚ × Comb :=
  let output := c.delay.read
  let fs := output * c.damp2 + c.filterstore * c.damp1
  (output,
    { c with
      filterstore := fs,
      delay := ((c.delay.write (input + fs * c.feedback)).advance_single_tap) })

end Comb

/-! ## Dattorro plate model (`fluid_rev_dattorro.cpp`) -/

/-- `DATTORRO_TRIM`. -/
def DATTORRO_TRIM : ℚ := 3 / 5

/-- `DATTORRO_SCALE_WET_WIDTH`. -/
def DATTORRO_SCALE_WET_WIDTH : ℚ := 1 / 5

/-- `DATTORRO_INPUT_DIFFUSION1`. -/
def DATTORRO_INPUT_DIFFUSION1 : ℚ := 3 / 4

/-- `DATTORRO_INPUT_DIFFUSION2`. -/
def DATTORRO_INPUT_DIFFUSION2 : ℚ := 5 / 8

/-- `DATTORRO_DECAY_DIFFUSION1`. -/
def DATTORRO_DECAY_DIFFUSION1 : ℚ := 7 / 10

/-- `DATTORRO_DECAY_DIFFUSION2`. -/
def DATTORRO_DECAY_DIFFUSION2 : ℚ := 1 / 2

/-- `DATTORRO_PREDELAY_MS`. -/
def DATTORRO_PREDELAY_MS : ℚ := 4

/-- `DATTORRO_DELAY_S`: the twelve delay lengths in seconds. -/
def DATTORRO_DELAY_S : List ℚ :=
  [0.004771345, 0.003595309, 0.012734787, 0.009307483,
    0.022579886, 0.149625349, 0.060481839, 0.1249958,
    0.030509727, 0.141695508, 0.089244313, 0.106280031]

/-- `DATTORRO_TAP_S`: the fourteen tap offsets in seconds. -/
def DATTORRO_TAP_S : List ℚ :=
  [0.008937872, 0.099929438, 0.064278754, 0.067067639, 0.066866033,
    0.006283391, 0.035818689, 0.011861161, 0.121870905, 0.041262054,
    0.08981553, 0.070931756, 0.011256342, 0.004065724]

/-- `fluid_dattorro_seconds_to_samples`: truncate `seconds·rate + 0.5`
to `int`, then force a minimum of 1 sample. -/
def fluid_dattorro_seconds_to_samples (seconds sample_rate : ℚ) : Nat :=
  let length := cTrunc (seconds * sample_rate + 1 / 2)
  if 0 < length then length.toNat else 1

/-- `fluid_dattorro_read_tap(delay, tap)`: non-mutating read at offset
`tap` from `line_out`, modulo the buffer size; 0 for an empty buffer. -/
def fluid_dattorro_read_tap (d : DelayLine) (tap : Nat) : ℚ :=
  if d.size = 0 then 0 else d.line.getD ((d.line_out + tap) % d.size) 0

/-- `fluid_dattorro_read_tap` on an allpass reads its shared delay line. -/
def fluid_dattorro_read_tap_ap (a : Allpass) (tap : Nat) : ℚ :=
  fluid_dattorro_read_tap a.delay tap

/-- `fluid_revmodel_dattorro` state. -/
structure Dattorro where
  roomsize : ℚ
  damp : ℚ
  level : ℚ
  wet1 : ℚ
  wet2 : ℚ
  width : ℚ
  bandwidth : ℚ
  decay : ℚ
  cached_sample_rate : ℚ
  bandwidth_state : ℚ
  damp_state_left : ℚ
  damp_state_right : ℚ
  predelay : DelayLine
  input_ap0 : Allpass
  input_ap1 : Allpass
  input_ap2 : Allpass
  input_ap3 : Allpass
  tank_ap0 : Allpass
  tank_ap1 : Allpass
  tank_ap2 : Allpass
  tank_ap3 : Allpass
  tank_delay0 : DelayLine
  tank_delay1 : DelayLine
  tank_delay2 : DelayLine
  tank_delay3 : DelayLine
  taps : List Nat
deriving DecidableEq

/-- `fluid_revmodel_dattorro::reset`: zero-fill every allocated buffer,
reposition its cursors to 0, zero the cached outputs of the diffusion and
tank filters and all three one-pole states.  (The predelay line's cached
output is not cleared by the source and is never read.) -/
def dattorro_reset (s : Dattorro) : Dattorro :=
  let clearDelay := fun (d : DelayLine) =>
    if d.line ≠ [] then (d.fill_buffer 0).set_single_tap_position 0 else d
  let clearAp := fun (a : Allpass) =>
    let a1 := if a.delay.line ≠ [] then (a.fill_buffer 0).set_index 0 else a
    a1.set_last_output 0
  { s with
    predelay := clearDelay s.predelay,
    input_ap0 := clearAp s.input_ap0, input_ap1 := clearAp s.input_ap1,
    input_ap2 := clearAp s.input_ap2, input_ap3 := clearAp s.input_ap3,
    tank_ap0 := clearAp s.tank_ap0, tank_ap1 := clearAp s.tank_ap1,
    tank_ap2 := clearAp s.tank_ap2, tank_ap3 := clearAp s.tank_ap3,
    tank_delay0 := (clearDelay s.tank_delay0).set_last_output 0,
    tank_delay1 := (clearDelay s.tank_delay1).set_last_output 0,
    tank_delay2 := (clearDelay s.tank_delay2).set_last_output 0,
    tank_delay3 := (clearDelay s.tank_delay3).set_last_output 0,
    bandwidth_state := 0,
    damp_state_left := 0,
    damp_state_right := 0 }

/-- `fluid_revmodel_dattorro::setup`: rebuild every buffer at the cached
sample rate, install modes, feedbacks and tap offsets, then `reset`. -/
def dattorro_setup (s : Dattorro) : Dattorro :=
  let sr := s.cached_sample_rate
  let len := fun (i : Nat) =>
    fluid_dattorro_seconds_to_samples (DATTORRO_DELAY_S.getD i 0) sr
  let inAp := fun (i : Nat) (fb : ℚ) (a : Allpass) =>
    { (a.set_buffer (len i)) with mode := APMode.schroeder, feedback := fb }
  dattorro_reset
    { s with
      predelay := s.predelay.set_buffer_pos
        (fluid_dattorro_seconds_to_samples (DATTORRO_PREDELAY_MS / 1000) sr),
      input_ap0 := inAp 0 DATTORRO_INPUT_DIFFUSION1 s.input_ap0,
      input_ap1 := inAp 1 DATTORRO_INPUT_DIFFUSION1 s.input_ap1,
      input_ap2 := inAp 2 DATTORRO_INPUT_DIFFUSION2 s.input_ap2,
      input_ap3 := inAp 3 DATTORRO_INPUT_DIFFUSION2 s.input_ap3,
      tank_ap0 := inAp 4 DATTORRO_DECAY_DIFFUSION1 s.tank_ap0,
      tank_ap1 := inAp 6 DATTORRO_DECAY_DIFFUSION2 s.tank_ap1,
      tank_ap2 := inAp 8 DATTORRO_DECAY_DIFFUSION1 s.tank_ap2,
      tank_ap3 := inAp 10 DATTORRO_DECAY_DIFFUSION2 s.tank_ap3,
      tank_delay0 := s.tank_delay0.set_buffer_pos (len 5),
      tank_delay1 := s.tank_delay1.set_buffer_pos (len 7),
      tank_delay2 := s.tank_delay2.set_buffer_pos (len 9),
      tank_delay3 := s.tank_delay3.set_buffer_pos (len 11),
      taps := (List.range 14).map
        (fun i => fluid_dattorro_seconds_to_samples (DATTORRO_TAP_S.getD i 0) sr) }

/-- `fluid_revmodel_dattorro::update`: recompute `wet1`, `wet2` and
`decay` from the stored parameters. -/
def dattorro_update (s : Dattorro) : Dattorro :=
  let wet := s.level / (1 + s.width * DATTORRO_SCALE_WET_WIDTH)
  { s with
    wet1 := wet * (s.width / 2 + 1 / 2),
    wet2 := wet * ((1 - s.width) / 2),
    decay := 1 / 5 + s.roomsize * (39 / 50) }

/-- The front half of the Dattorro per-sample flow: trim, predelay,
bandwidth one-pole, four input-diffusion allpasses.  Returns the diffused
`split` value and the state with those components advanced. -/
def dattorro_front (s : Dattorro) (x : ℚ) : ℚ × Dattorro :=
  let input := x * DATTORRO_TRIM
  let rp := s.predelay.process input
  let bw := s.bandwidth_state + s.bandwidth * (rp.1 - s.bandwidth_state)
  let r0 := Allpass.process bw s.input_ap0
  let r1 := Allpass.process r0.1 s.input_ap1
  let r2 := Allpass.process r1.1 s.input_ap2
  let r3 := Allpass.process r2.1 s.input_ap3
  (r3.1,
    { s with
      predelay := rp.2,
      bandwidth_state := bw,
      input_ap0 := r0.2, input_ap1 := r1.2, input_ap2 := r2.2, input_ap3 := r3.2 })

/-- The left tank of the Dattorro per-sample flow: cross-input from
`tank_delay[3].last_output`, allpass 0, delay 0, damping LPF, allpass 1,
delay 1. -/
def dattorro_left_tank (s : Dattorro) (split : ℚ) : Dattorro :=
  let left0 := split + s.decay * s.tank_delay3.last_output
  let rt0 := Allpass.process left0 s.tank_ap0
  let rtd0 := DelayLine.process rt0.1 s.tank_delay0
  let dsl := s.damp_state_left + (1 - s.damp) * (rtd0.1 - s.damp_state_left)
  let rt1 := Allpass.process (s.decay * dsl) s.tank_ap1
  let rtd1 := DelayLine.process rt1.1 s.tank_delay1
  { s with
    tank_ap0 := rt0.2, tank_delay0 := rtd0.2,
    damp_state_left := dsl,
    tank_ap1 := rt1.2, tank_delay1 := rtd1.2 }

/-- The right tank of the Dattorro per-sample flow: cross-input from
`tank_delay[1].last_output` (read from the state the left tank already
updated this sample), allpass 2, delay 2, damping LPF, allpass 3,
delay 3. -/
def dattorro_right_tank (s : Dattorro) (split : ℚ) : Dattorro :=
  let right0 := split + s.decay * s.tank_delay1.last_output
  let rt2 := Allpass.process right0 s.tank_ap2
  let rtd2 := DelayLine.process rt2.1 s.tank_delay2
  let dsr := s.damp_state_right + (1 - s.damp) * (rtd2.1 - s.damp_state_right)
  let rt3 := Allpass.process (s.decay * dsr) s.tank_ap3
  let rtd3 := DelayLine.process rt3.1 s.tank_delay3
  { s with
    tank_ap2 := rt2.2, tank_delay2 := rtd2.2,
    damp_state_right := dsr,
    tank_ap3 := rt3.2, tank_delay3 := rtd3.2 }

/-- The fourteen signed tap readouts assembling the raw stereo pair. -/
def dattorro_tap_outs (s : Dattorro) : ℚ × ℚ :=
  let tap := fun (d : DelayLine) (i : Nat) => fluid_dattorro_read_tap d (s.taps.getD i 0)
  let tapA := fun (a : Allpass) (i : Nat) => fluid_dattorro_read_tap_ap a (s.taps.getD i 0)
  (tap s.tank_delay2 0 + tap s.tank_delay2 1 - tapA s.tank_ap3 2
      + tap s.tank_delay3 3 - tap s.tank_delay0 4 - tapA s.tank_ap1 5
      - tap s.tank_delay1 6,
    tap s.tank_delay0 7 + tap s.tank_delay0 8 - tapA s.tank_ap1 9
      + tap s.tank_delay1 10 - tap s.tank_delay2 11 - tapA s.tank_ap3 12
      - tap s.tank_delay3 13)

/-- One loop iteration of `fluid_revmodel_dattorro::process`: front half,
left tank, right tank, tap readouts, `wet1` / `wet2` stereo mix. -/
def dattorro_step (s : Dattorro) (x : ℚ) : ℚ × ℚ × Dattorro :=
  let f := dattorro_front s x
  let s1 := dattorro_left_tank f.2 f.1
  let s2 := dattorro_right_tank s1 f.1
  let o := dattorro_tap_outs s2
  (o.1 * s.wet1 + o.2 * s.wet2, o.2 * s.wet1 + o.1 * s.wet2, s2)

/-- `fluid_revmodel_dattorro::processmix`. -/
def dattorro_processmix (s : Dattorro) (ins Ls Rs : List ℚ) :
    List ℚ × List ℚ × Dattorro :=
  processBlock dattorro_step true s ins Ls Rs

/-- `fluid_revmodel_dattorro::processreplace`. -/
def dattorro_processreplace (s : Dattorro) (ins Ls Rs : List ℚ) :
    List ℚ × List ℚ × Dattorro :=
  processBlock dattorro_step false s ins Ls Rs

/-- `fluid_revmodel_dattorro::set`: clamp and store each selected
parameter, then `update`. -/
def dattorro_set (s : Dattorro) (mask : Nat)
    (roomsize damping width level : ℚ) : Dattorro :=
  let s := if mask &&& FLUID_REVMODEL_SET_ROOMSIZE ≠ 0
    then { s with roomsize := fluid_clip roomsize 0 1 } else s
  let s := if mask &&& FLUID_REVMODEL_SET_DAMPING ≠ 0
    then { s with damp := fluid_clip damping 0 1 } else s
  let s := if mask &&& FLUID_REVMODEL_SET_WIDTH ≠ 0
    then { s with width := fluid_clip width 0 100 } else s
  let s := if mask &&& FLUID_REVMODEL_SET_LEVEL ≠ 0
    then { s with level := fluid_clip level 0 1 } else s
  dattorro_update s

/-- `fluid_revmodel_dattorro::samplerate_change`: fail for non-positive
rates, otherwise cache the rate, `setup`, `update`, report `FLUID_OK`. -/
def dattorro_samplerate_change (s : Dattorro) (sample_rate : ℚ) : Int × Dattorro :=
  if sample_rate ≤ 0 then (FLUID_FAILED, s)
  else (FLUID_OK, dattorro_update (dattorro_setup { s with cached_sample_rate := sample_rate }))

/-- `fluid_revmodel_dattorro::fluid_revmodel_dattorro(sample_rate)`: throws
for a non-positive rate (modelled as `none`); otherwise initialises the
scalar members and runs `setup` (buffer allocation modelled as
succeeding). -/
def dattorro_ctor (sample_rate : ℚ) : Option Dattorro :=
  if sample_rate ≤ 0 then none
  else
    let d0 : DelayLine := { line := [], line_in := 0, line_out := 0, coefficient := 0, last_output := 0 }
    let a0 : Allpass := { mode := APMode.schroeder, feedback := 0, delay := d0, last_output := 0 }
    some (dattorro_setup
      { roomsize := 0, damp := 0, level := 0, wet1 := 0, wet2 := 0, width := 0,
        bandwidth := 9999 / 10000, decay := 1 / 2,
        cached_sample_rate := sample_rate,
        bandwidth_state := 0, damp_state_left := 0, damp_state_right := 0,
        predelay := d0,
        input_ap0 := a0, input_ap1 := a0, input_ap2 := a0, input_ap3 := a0,
        tank_ap0 := a0, tank_ap1 := a0, tank_ap2 := a0, tank_ap3 := a0,
        tank_delay0 := d0, tank_delay1 := d0, tank_delay2 := d0, tank_delay3 := d0,
        taps := List.replicate 14 0 })

/-! ## Freeverb model (`fluid_rev_dattorro.cpp`, second translation unit,
with `fluid_rev_freeverb.h`) -/

/-- `DC_OFFSET` (1e-8), the denormal-avoidance offset. -/
def DC_OFFSET : ℚ := 1 / 100000000

/-- `fixedgain` (0.015). -/
def fixedgain : ℚ := 3 / 200

/-- `scale_wet_width` (0.2). -/
def scale_wet_width : ℚ := 1 / 5

/-- `scalewet` (3.0). -/
def scalewet : ℚ := 3

/-- `scaledamp` (1.0). -/
def scaledamp : ℚ := 1

/-- `scaleroom` (0.28). -/
def scaleroom : ℚ := 7 / 25

/-- `offsetroom` (0.7). -/
def offsetroom : ℚ := 7 / 10

/-- `stereospread` (23 samples). -/
def stereospread : ℚ := 23

/-- `combtuningL1..L8`: the left-channel comb lengths at 44100 Hz. -/
def freeverb_comb_tunings : List ℚ :=
  [1116, 1188, 1277, 1356, 1422, 1491, 1557, 1617]

/-- `allpasstuningL1..L4`: the left-channel allpass lengths at 44100 Hz. -/
def freeverb_allpass_tunings : List ℚ :=
  [556, 441, 341, 225]

/-- `fluid_revmodel_freeverb` state.  The scalar parameters are
indeterminate after the C++ constructor (it only builds the filters and
sets `gain`); they are modelled as 0, which no verified claim observes. -/
structure Freeverb where
  roomsize : ℚ
  damp : ℚ
  level : ℚ
  wet1 : ℚ
  wet2 : ℚ
  width : ℚ
  gain : ℚ
  combL : List Comb
  combR : List Comb
  allpassL : List Allpass
  allpassR : List Allpass
deriving DecidableEq

/-- A comb buffer length `tuning * srfactor` as truncated to `int` by
`fluid_freeverb_set_revmodel_buffers` (`srfactor = sample_rate / 44100`). -/
def freeverb_buf_length (tuning sample_rate : ℚ) : Int :=
  cTrunc (tuning * (sample_rate / 44100))

/-- All 24 buffer lengths the Freeverb constructor requests, in order. -/
def freeverb_buf_lengths (sample_rate : ℚ) : List Int :=
  (freeverb_comb_tunings ++ freeverb_comb_tunings.map (· + stereospread) ++
      freeverb_allpass_tunings ++ freeverb_allpass_tunings.map (· + stereospread)).map
    (fun t => freeverb_buf_length t sample_rate)

/-- A freshly `set_buffer`ed comb of the given tuning. -/
def freeverb_mk_comb (tuning sample_rate : ℚ) : Comb :=
  Comb.set_buffer (freeverb_buf_length tuning sample_rate).toNat
    { feedback := 0, filterstore := 0, damp1 := 0, damp2 := 0,
      delay := { line := [], line_in := 0, line_out := 0, coefficient := 0, last_output := 0 } }

/-- A freshly `set_buffer`ed Freeverb-mode allpass of the given tuning with
the fixed feedback 0.5. -/
def freeverb_mk_allpass (tuning sample_rate : ℚ) : Allpass :=
  Allpass.set_buffer (freeverb_buf_length tuning sample_rate).toNat
    { mode := APMode.freeverb, feedback := 1 / 2,
      delay := { line := [], line_in := 0, line_out := 0, coefficient := 0, last_output := 0 },
      last_output := 0 }

/-- `fluid_freeverb_revmodel_init`: fill every comb and allpass buffer with
`DC_OFFSET`. -/
def freeverb_init (s : Freeverb) : Freeverb :=
  { s with
    combL := s.combL.map (Comb.fill_buffer DC_OFFSET),
    combR := s.combR.map (Comb.fill_buffer DC_OFFSET),
    allpassL := s.allpassL.map (Allpass.fill_buffer DC_OFFSET),
    allpassR := s.allpassR.map (Allpass.fill_buffer DC_OFFSET) }

/-- `fluid_revmodel_freeverb`'s constructor: build all 24 buffers (the
vector `set_buffer` throws when a computed length is not positive, which
the factory catches — modelled as `none`), fill them with `DC_OFFSET`, set
allpass modes and feedback 0.5, and `gain = fixedgain`. -/
def freeverb_ctor (sample_rate : ℚ) : Option Freeverb :=
  if (freeverb_buf_lengths sample_rate).all (fun n => 1 ≤ n) then
    some (freeverb_init
      { roomsize := 0, damp := 0, level := 0, wet1 := 0, wet2 := 0, width := 0,
        gain := fixedgain,
        combL := freeverb_comb_tunings.map (fun t => freeverb_mk_comb t sample_rate),
        combR := freeverb_comb_tunings.map
          (fun t => freeverb_mk_comb (t + stereospread) sample_rate),
        allpassL := freeverb_allpass_tunings.map (fun t => freeverb_mk_allpass t sample_rate),
        allpassR := freeverb_allpass_tunings.map
          (fun t => freeverb_mk_allpass (t + stereospread) sample_rate) })
  else none

/-- `fluid_freeverb_revmodel_update`: recompute `wet1` / `wet2` and push
the stored `roomsize` (comb feedback) and `damp` into every comb. -/
def freeverb_update (s : Freeverb) : Freeverb :=
  let wet := s.level * scalewet / (1 + s.width * scale_wet_width)
  { s with
    wet1 := wet * (s.width / 2 + 1 / 2),
    wet2 := wet * ((1 - s.width) / 2),
    combL := (s.combL.map (Comb.set_feedback s.roomsize)).map (Comb.set_damp s.damp),
    combR := (s.combR.map (Comb.set_feedback s.roomsize)).map (Comb.set_damp s.damp) }

/-- `fluid_freeverb_revmodel_set`: `roomsize` is clamped to `[0, 1]` and
then mapped through `roomsize·scaleroom + offsetroom`; `level` is clamped
to `[0, 1]`; `damping` (times `scaledamp`) and `width` are stored without
clamping; then `update`. -/
def freeverb_set (s : Freeverb) (mask : Nat)
    (roomsize damping width level : ℚ) : Freeverb :=
  let s := if mask &&& FLUID_REVMODEL_SET_ROOMSIZE ≠ 0
    then { s with roomsize := fluid_clip roomsize 0 1 * scaleroom + offsetroom } else s
  let s := if mask &&& FLUID_REVMODEL_SET_DAMPING ≠ 0
    then { s with damp := damping * scaledamp } else s
  let s := if mask &&& FLUID_REVMODEL_SET_WIDTH ≠ 0
    then { s with width := width } else s
  let s := if mask &&& FLUID_REVMODEL_SET_LEVEL ≠ 0
    then { s with level := fluid_clip level 0 1 } else s
  freeverb_update s

/-- One loop iteration of `fluid_revmodel_freeverb::process`: DC-offset
input conditioning, eight parallel combs per channel, four series
allpasses per channel, DC-offset removal, `wet1` / `wet2` stereo mix. -/
def freeverb_step (s : Freeverb) (x : ℚ) : ℚ × ℚ × Freeverb :=
  let input := (2 * x + DC_OFFSET) * s.gain
  let outL0 := (s.combL.map (fun c => (Comb.process input c).1)).sum
  let outR0 := (s.combR.map (fun c => (Comb.process input c).1)).sum
  let combL2 := s.combL.map (fun c => (Comb.process input c).2)
  let combR2 := s.combR.map (fun c => (Comb.process input c).2)
  let fl := s.allpassL.foldl
    (fun (acc : ℚ × List Allpass) a =>
      let r := Allpass.process acc.1 a
      (r.1, acc.2 ++ [r.2])) (outL0, [])
  let fr := s.allpassR.foldl
    (fun (acc : ℚ × List Allpass) a =>
      let r := Allpass.process acc.1 a
      (r.1, acc.2 ++ [r.2])) (outR0, [])
  let outL := fl.1 - DC_OFFSET
  let outR := fr.1 - DC_OFFSET
  (outL * s.wet1 + outR * s.wet2, outR * s.wet1 + outL * s.wet2,
    { s with combL := combL2, combR := combR2, allpassL := fl.2, allpassR := fr.2 })

/-- `fluid_revmodel_freeverb::processmix`. -/
def freeverb_processmix (s : Freeverb) (ins Ls Rs : List ℚ) :
    List ℚ × List ℚ × Freeverb :=
  processBlock freeverb_step true s ins Ls Rs

/-- `fluid_revmodel_freeverb::processreplace`. -/
def freeverb_processreplace (s : Freeverb) (ins Ls Rs : List ℚ) :
    List ℚ × List ℚ × Freeverb :=
  processBlock freeverb_step false s ins Ls Rs

/-! ## Factory (`src/unnamed/part_002`, `new_fluid_revmodel`) -/

/-- `FLUID_REVERB_TYPE_FREEVERB` selector (value modelled; `fluid_rev.h`
is not under src/). -/
def FLUID_REVERB_TYPE_FREEVERB : Nat := 0

/-- `FLUID_REVERB_TYPE_LEXVERB` selector. -/
def FLUID_REVERB_TYPE_LEXVERB : Nat := 1

/-- `FLUID_REVERB_TYPE_FDN` selector (any other value selects this
branch, as in the factory's `else`). -/
def FLUID_REVERB_TYPE_FDN : Nat := 2

/-- The three model kinds a successful factory call can return. -/
inductive Revmodel where
  | freeverb (s : Freeverb)
  | lexverb (s : Lexverb)
  | fdn (s : Dattorro)
deriving DecidableEq

/-- Modelled from the spec: the constructor of `fluid_revmodel_fdn` (the
factory's default branch) is not under src/; per spec §4.8 "FDN is
Dattorro/plate in this core" and §7 a non-positive sample rate or an
allocation failure throws, which the factory reports as null.  Modelled by
the Dattorro constructor; `sample_rate_max` does not affect failure. -/
def fdn_ctor (_sample_rate_max sample_rate : ℚ) : Option Dattorro :=
  dattorro_ctor sample_rate

/-- `new_fluid_revmodel(sample_rate_max, sample_rate, reverb_type)`: build
the selected model inside try/catch; any constructor exception becomes a
null return (`none`).  The Lexverb constructor never throws: it returns a
(possibly invalid) object unconditionally. -/
def new_fluid_revmodel (sample_rate_max sample_rate : ℚ) (reverb_type : Nat) :
    Option Revmodel :=
  if reverb_type = FLUID_REVERB_TYPE_FREEVERB then
    (freeverb_ctor sample_rate).map Revmodel.freeverb
  else if reverb_type = FLUID_REVERB_TYPE_LEXVERB then
    some (Revmodel.lexverb (lexverb_ctor sample_rate))
  else
    (fdn_ctor sample_rate_max sample_rate).map Revmodel.fdn

/-! ## Cross-feedback read extractors (claim C4)

These replay the step prefixes exactly as `dattorro_step` composes them,
and expose the value each cross-coupled feedback read actually obtains. -/

/-- The value the Dattorro left tank reads from `tank_delay[3]`'s cached
output when processing input `x`. -/
def dattorro_left_cross_read (s : Dattorro) (x : ℚ) : ℚ :=
  (dattorro_front s x).2.tank_delay3.last_output

/-- The value the Dattorro right tank reads from `tank_delay[1]`'s cached
output when processing input `x` (the left tank has already run). -/
def dattorro_right_cross_read (s : Dattorro) (x : ℚ) : ℚ :=
  (dattorro_left_tank (dattorro_front s x).2 (dattorro_front s x).1).tank_delay1.last_output

/-! ## Zero-state predicates, the spec-side length formula, and concrete
demonstration states -/

/-- A Lexverb stage holding no signal: all buffer cells and the cached
output are zero. -/
def LexStageZero (st : LexStage) : Prop :=
  (∀ q ∈ st.buf, q = 0) ∧ st.out_data = 0

/-- A Lexverb model holding no signal. -/
def LexverbZero (s : Lexverb) : Prop :=
  LexStageZero s.ap0 ∧ LexStageZero s.ap1 ∧ LexStageZero s.ap2 ∧
    LexStageZero s.ap3 ∧ LexStageZero s.ap4 ∧ LexStageZero s.ap5 ∧
    LexStageZero s.ap6 ∧ LexStageZero s.ap7 ∧ LexStageZero s.ap8 ∧
    LexStageZero s.ap9 ∧ LexStageZero s.dl0 ∧ LexStageZero s.dl1 ∧
    s.damp_state_left = 0 ∧ s.damp_state_right = 0

/-- A delay line holding no signal: all cells and the cached output zero. -/
def DelayZero (d : DelayLine) : Prop :=
  (∀ q ∈ d.line, q = 0) ∧ d.last_output = 0

/-- An allpass holding no signal: all delay cells zero. -/
def AllpassZero (a : Allpass) : Prop :=
  ∀ q ∈ a.delay.line, q = 0

/-- A Dattorro model holding no signal.  (`predelay.last_output` is never
read and not cleared by `reset`, so only its buffer matters.) -/
def DattorroZero (s : Dattorro) : Prop :=
  (∀ q ∈ s.predelay.line, q = 0) ∧
    AllpassZero s.input_ap0 ∧ AllpassZero s.input_ap1 ∧
    AllpassZero s.input_ap2 ∧ AllpassZero s.input_ap3 ∧
    AllpassZero s.tank_ap0 ∧ AllpassZero s.tank_ap1 ∧
    AllpassZero s.tank_ap2 ∧ AllpassZero s.tank_ap3 ∧
    DelayZero s.tank_delay0 ∧ DelayZero s.tank_delay1 ∧
    DelayZero s.tank_delay2 ∧ DelayZero s.tank_delay3 ∧
    s.bandwidth_state = 0 ∧ s.damp_state_left = 0 ∧ s.damp_state_right = 0

/-- The Lexverb stage buffer length as the spec words it:
`round(ms · sample_rate / 1000)`, minimum 1 sample. -/
def spec_lexverb_buf_length (ms sample_rate : ℚ) : Int :=
  max 1 (round (ms * sample_rate / 1000))

/-- A concrete Lexverb state for the cross-feedback counterexample: every
stage has coefficient 0 and a zero 2-sample buffer at position 0, except
AP4 whose buffer holds the value 9 (so that processing AP4 produces a
fresh `out_data = 9` in the same sample, while the stored `out_data` is
still 0). -/
def lexverb_cross_demo : Lexverb :=
  let z : LexStage := { buf := [0, 0], out_pos := 0, coef := 0, in_data := 0, out_data := 0 }
  { roomsize := 0, damp := 0, level := 0, wet1 := 0, wet2 := 0, width := 0,
    valid := true, damp_state_left := 0, damp_state_right := 0,
    ap0 := z, ap1 := z, ap2 := z, ap3 := z,
    ap4 := { z with buf := [9, 9] },
    ap5 := z, ap6 := z, ap7 := z, ap8 := z, ap9 := z,
    dl0 := z, dl1 := z }

/-- A concrete Dattorro state for the cross-feedback counterexample: every
scalar coefficient is 0 and every buffer is a single zero cell, except
`tank_delay[1]` whose cell holds 7 while its cached `last_output` is 0
(so the value produced by this sample's `process` differs from the
previous sample's cached output). -/
def dattorro_cross_demo : Dattorro :=
  let d : DelayLine := { line := [0], line_in := 0, line_out := 0, coefficient := 0, last_output := 0 }
  let a : Allpass := { mode := APMode.schroeder, feedback := 0, delay := d, last_output := 0 }
  { roomsize := 0, damp := 0, level := 0, wet1 := 0, wet2 := 0, width := 0,
    bandwidth := 0, decay := 0, cached_sample_rate := 1,
    bandwidth_state := 0, damp_state_left := 0, damp_state_right := 0,
    predelay := d,
    input_ap0 := a, input_ap1 := a, input_ap2 := a, input_ap3 := a,
    tank_ap0 := a, tank_ap1 := a, tank_ap2 := a, tank_ap3 := a,
    tank_delay0 := d,
    tank_delay1 := { d with line := [7] },
    tank_delay2 := d, tank_delay3 := d,
    taps := List.replicate 14 0 }

/-- A concrete Freeverb state (scalars zero, no filters) used to exhibit
the unclamped parameter stores. -/
def freeverb_demo : Freeverb :=
  { roomsize := 0, damp := 0, level := 0, wet1 := 0, wet2 := 0, width := 0,
    gain := fixedgain, combL := [], combR := [], allpassL := [], allpassR := [] }

/-! ## Delay-line lemmas and claims C9, C5 -/

namespace DelayLine

/-- `process` never changes the buffer length. -/
theorem process_size (d : DelayLine) (x : ℚ) : ((d.process x).2).size = d.size := by
  simp [process, read, write, advance_single_tap, advance, size]

/-- After a `process` call the cursors are realigned. -/
theorem process_line_in_eq (d : DelayLine) (x : ℚ) :
    ((d.process x).2).line_in = ((d.process x).2).line_out := by
  simp [process, read, write, advance_single_tap, advance]

/-- After a `process` call from an in-range cursor, the cursor is in range. -/
theorem process_line_out_lt (d : DelayLine) (x : ℚ) (h : d.line_out < d.size) :
    ((d.process x).2).line_out < ((d.process x).2).size := by
  have hsz : ((d.process x).2).size = d.size := process_size d x
  rw [hsz]
  have h1 : 0 < d.size := Nat.lt_of_le_of_lt (Nat.zero_le _) h
  simp only [process, read, write, advance_single_tap, advance, size] at *
  split
  · exact h1
  · omega

/-- `processList` never changes the buffer length. -/
theorem processList_size (xs : List ℚ) (d : DelayLine) :
    (d.processList xs).size = d.size := by
  induction xs generalizing d with
  | nil => rfl
  | cons x xs ih =>
      simpa [processList] using (ih ((d.process x).2)).trans (process_size d x)

/-- `processList` keeps an in-range cursor in range. -/
theorem processList_line_out_lt (xs : List ℚ) (d : DelayLine)
    (h : d.line_out < d.size) :
    (d.processList xs).line_out < (d.processList xs).size := by
  induction xs generalizing d with
  | nil => simpa [processList] using h
  | cons x xs ih =>
      have h1 := process_line_out_lt d x h
      simpa [processList] using ih ((d.process x).2) h1

/-- After a non-empty run of `process` calls the cursors are realigned. -/
theorem processList_line_in_eq (xs : List ℚ) (d : DelayLine)
    (h : d.line_in = d.line_out) : (d.processList xs).line_in = (d.processList xs).line_out := by
  induction xs generalizing d with
  | nil => simpa [processList] using h
  | cons x xs ih =>
      simpa [processList] using ih ((d.process x).2) (process_line_in_eq d x)

end DelayLine

/-- Mixing one block equals replacing into zeroed buffers of the same shape
and then adding the saved buffer contents, with identical final state. -/
theorem processBlock_mix_eq_replace_add {S : Type} (step : S → ℚ → ℚ × ℚ × S)
    (s : S) (ins Ls Rs : List ℚ) :
    processBlock step true s ins Ls Rs =
      (List.zipWith (· + ·) Ls
          (processBlock step false s ins (List.replicate Ls.length 0)
            (List.replicate Rs.length 0)).1,
        List.zipWith (· + ·) Rs
          (processBlock step false s ins (List.replicate Ls.length 0)
            (List.replicate Rs.length 0)).2.1,
        (processBlock step false s ins (List.replicate Ls.length 0)
          (List.replicate Rs.length 0)).2.2) := by
  induction ins generalizing s Ls Rs with
  | nil => cases Ls <;> cases Rs <;> simp [processBlock]
  | cons x ins ih =>
      cases Ls with
      | nil => simp [processBlock]
      | cons l0 Ls =>
          cases Rs with
          | nil => simp [processBlock]
          | cons r0 Rs => simp [processBlock, ih]

/-- C9: for a delay line of length `N ≥ 1` whose cursor starts in `[0, N)`,
after any finite sequence of `process` calls `line_out` is still in `[0, N)`,
and after each call `line_in = line_out` (shown for every prefix of the call
sequence, i.e. after every intermediate call). -/
theorem delay_cursor_invariant (d : DelayLine) (xs : List ℚ)
    (h : d.line_out < d.size) (k : Nat) :
    (d.processList (xs.take k)).line_out < (d.processList (xs.take k)).size ∧
      ((xs.take k) ≠ [] →
        (d.processList (xs.take k)).line_in = (d.processList (xs.take k)).line_out) := by
  constructor
  · exact DelayLine.processList_line_out_lt (xs.take k) d h
  · intro hne
    rcases List.exists_cons_of_ne_nil hne with ⟨y, ys, hys⟩
    rw [hys]
    simp only [DelayLine.processList, List.foldl_cons]
    exact DelayLine.processList_line_in_eq ys ((d.process y).2)
      (DelayLine.process_line_in_eq d y)

/-- Witness for C9 at a concrete delay line and call sequence. -/
theorem delay_cursor_invariant_witness :
    ((DelayLine.mk [0, 0] 0 1 0 0).line_out < (DelayLine.mk [0, 0] 0 1 0 0).size) ∧
      (((DelayLine.mk [0, 0] 0 1 0 0).processList ([1, 2, 3].take 3)).line_out <
          ((DelayLine.mk [0, 0] 0 1 0 0).processList ([1, 2, 3].take 3)).size ∧
        (([1, 2, 3].take 3 : List ℚ) ≠ [] →
          ((DelayLine.mk [0, 0] 0 1 0 0).processList ([1, 2, 3].take 3)).line_in =
            ((DelayLine.mk [0, 0] 0 1 0 0).processList ([1, 2, 3].take 3)).line_out)) :=
  ⟨by decide, delay_cursor_invariant (DelayLine.mk [0, 0] 0 1 0 0) [1, 2, 3] (by decide) 3⟩

/-- C5 counterexample: `set_buffer` does not zero existing cells.  A length-1
delay line whose cell holds 5 (written by a `process` call) still holds 5
after a successful `set_buffer(1)`: `std::vector::resize` keeps it. -/
theorem delay_set_buffer_keeps_contents :
    ¬ (∀ d' ∈ (((DelayLine.mk [0] 0 0 0 0).process 5).2.set_buffer 1),
        ∀ x ∈ d'.line, x = 0) := by decide

/-- C5 amended: after a successful `set_buffer(n)` (`n ≥ 1`) the two cursors
and `last_output` are reset to 0 and the buffer has length `n`; every cell
beyond the previous length is zero-initialised — in particular a freshly
constructed (empty) delay line is all zeros after its first `set_buffer` —
but cells that already existed keep their previous contents. -/
theorem delay_set_buffer_spec (d : DelayLine) (n : Int) (h : 1 ≤ n) :
    ∃ d', d.set_buffer n = some d' ∧
      d'.line_in = 0 ∧ d'.line_out = 0 ∧ d'.last_output = 0 ∧
      d'.size = n.toNat ∧
      (∀ i, d.line.length ≤ i → ∀ q, d'.line.getD i q = (if i < d'.size then 0 else q)) ∧
      (d.line = [] → ∀ x ∈ d'.line, x = 0) := by
  refine ⟨{ d with
      line := d.line.take n.toNat ++ List.replicate (n.toNat - d.line.length) 0,
      line_in := 0, line_out := 0, last_output := 0 }, ?_, rfl, rfl, rfl, ?_, ?_, ?_⟩
  · unfold DelayLine.set_buffer
    rw [if_neg (by omega)]
  · show (d.line.take n.toNat ++ List.replicate (n.toNat - d.line.length) 0).length = n.toNat
    have h2 : 0 < n.toNat := by omega
    rcases le_or_lt n.toNat d.line.length with hle | hlt
    · simp [List.length_take, Nat.min_eq_left hle, Nat.sub_eq_zero_of_le hle]
    · have : d.line.length ≤ n.toNat := Nat.le_of_lt hlt
      simp [List.length_take, Nat.min_eq_right this]
      omega
  · intro i hi q
    show ((d.line.take n.toNat ++ List.replicate (n.toNat - d.line.length) 0).getD i q) = _
    have hlen : (d.line.take n.toNat ++ List.replicate (n.toNat - d.line.length) 0).length =
        min n.toNat d.line.length + (n.toNat - d.line.length) := by
      simp [List.length_take]
    by_cases hin : i < (d.line.take n.toNat ++ List.replicate (n.toNat - d.line.length) 0).length
    · have hsz : i < DelayLine.size { d with
          line := d.line.take n.toNat ++ List.replicate (n.toNat - d.line.length) 0,
          line_in := 0, line_out := 0, last_output := 0 } := hin
      rw [if_pos hsz]
      rw [List.getD_eq_getElem _ _ hin]
      have htk : (d.line.take n.toNat).length ≤ i := by
        have : (d.line.take n.toNat).length ≤ d.line.length := by
          simp [List.length_take]
        omega
      rw [List.getElem_append_right htk]
      simp
    · have hsz : ¬ i < DelayLine.size { d with
          line := d.line.take n.toNat ++ List.replicate (n.toNat - d.line.length) 0,
          line_in := 0, line_out := 0, last_output := 0 } := hin
      rw [if_neg hsz]
      exact List.getD_eq_default _ _ (Nat.le_of_not_lt hin)
  · intro hnil x hx
    simp only [hnil, List.take_nil, List.nil_append] at hx
    exact List.eq_of_mem_replicate hx

/-- Witness for the amended C5 at a concrete delay line and length. -/
theorem delay_set_buffer_spec_witness :
    ∃ d', (DelayLine.mk [] 3 4 0 7).set_buffer 2 = some d' ∧
      d'.line_in = 0 ∧ d'.line_out = 0 ∧ d'.last_output = 0 ∧
      d'.size = (2 : Int).toNat ∧
      (∀ i, (DelayLine.mk [] 3 4 0 7).line.length ≤ i →
        ∀ q, d'.line.getD i q = (if i < d'.size then 0 else q)) ∧
      ((DelayLine.mk [] 3 4 0 7).line = [] → ∀ x ∈ d'.line, x = 0) :=
  delay_set_buffer_spec (DelayLine.mk [] 3 4 0 7) 2 (by decide)

/-! ## Claims C1 and C10 (Lexverb error handling) -/

/-- C1 counterexample: Lexverb's `samplerate_change` is not an unconditional
failure.  At the positive rate 200 it returns `FLUID_OK`, and it does
reconfigure the model: AP0's coefficient becomes the table value 0.750,
overwriting the previous 99. -/
theorem lexverb_samplerate_change_succeeds :
    (lexverb_samplerate_change lexverb_demo 200).1 = FLUID_OK ∧
      (lexverb_samplerate_change lexverb_demo 200).2.ap0.coef = 3 / 4 ∧
      lexverb_demo.ap0.coef = 99 := by
  refine ⟨?_, ?_, rfl⟩ <;>
    norm_num [lexverb_samplerate_change, fluid_lexverb_setup_blocks,
      lexverb_stage_setup, LEX_REVERB_PARMS, FLUID_OK]

/-- C1 amended: `samplerate_change` reports `FLUID_FAILED` and leaves the
model untouched exactly for non-positive sample rates; for every positive
rate (with buffer allocation succeeding) it rebuilds the stage buffers at
the new rate, marks the model valid and returns `FLUID_OK`. -/
theorem lexverb_samplerate_change_spec (s : Lexverb) (sample_rate : ℚ) :
    (sample_rate ≤ 0 → lexverb_samplerate_change s sample_rate = (FLUID_FAILED, s)) ∧
      (0 < sample_rate →
        (lexverb_samplerate_change s sample_rate).1 = FLUID_OK ∧
          (lexverb_samplerate_change s sample_rate).2 =
            { fluid_lexverb_setup_blocks s sample_rate with valid := true }) := by
  constructor
  · intro h
    simp [lexverb_samplerate_change, h]
  · intro h
    have h1 : ¬ sample_rate ≤ 0 := not_le.mpr h
    simp [lexverb_samplerate_change, h1]

/-- Witness for the amended C1 at concrete states and rates. -/
theorem lexverb_samplerate_change_spec_witness :
    lexverb_samplerate_change lexverb_demo (-3) = (FLUID_FAILED, lexverb_demo) ∧
      (lexverb_samplerate_change lexverb_demo 200).1 = FLUID_OK :=
  ⟨(lexverb_samplerate_change_spec lexverb_demo (-3)).1 (by norm_num),
    ((lexverb_samplerate_change_spec lexverb_demo 200).2 (by norm_num)).1⟩

/-- C10: with the `valid` flag false, Lexverb's `processmix`,
`processreplace` and `reset` are complete no-ops: the model state is
unchanged and both caller output buffers are returned exactly as given
(no zeros are written). -/
theorem lexverb_invalid_noop (s : Lexverb) (ins Ls Rs : List ℚ)
    (h : s.valid = false) :
    lexverb_processmix s ins Ls Rs = (Ls, Rs, s) ∧
      lexverb_processreplace s ins Ls Rs = (Ls, Rs, s) ∧
      lexverb_reset s = s := by
  refine ⟨?_, ?_, ?_⟩ <;>
    simp [lexverb_processmix, lexverb_processreplace, lexverb_reset, h]

/-- Witness for C10: the model constructed at an invalid sample rate has
`valid = false`, and its operations leave concrete buffers untouched. -/
theorem lexverb_invalid_noop_witness :
    lexverb_processmix (lexverb_ctor (-1)) [1, 2] [3, 4] [5, 6] =
        ([3, 4], [5, 6], lexverb_ctor (-1)) ∧
      lexverb_processreplace (lexverb_ctor (-1)) [1, 2] [3, 4] [5, 6] =
        ([3, 4], [5, 6], lexverb_ctor (-1)) ∧
      lexverb_reset (lexverb_ctor (-1)) = lexverb_ctor (-1) :=
  lexverb_invalid_noop (lexverb_ctor (-1)) [1, 2] [3, 4] [5, 6] (by decide)

/-! ## Claim C7: mixing equals replacing plus adding -/

/-- Adding a matching zero buffer is the identity. -/
theorem zipWith_add_replicate_zero (L : List ℚ) :
    List.zipWith (· + ·) L (List.replicate L.length 0) = L := by
  induction L with
  | nil => rfl
  | cons x xs ih => simp [List.replicate_succ, ih]

/-- C7: for every model (Freeverb, Dattorro, Lexverb), every model state,
every input block and every initial output contents `Ls`, `Rs`,
`processmix` produces exactly the final model state of `processreplace`
run from the same state into fresh (zeroed) buffers of the same shape, and
its outputs are the saved contents plus the `processreplace` outputs,
sample by sample. -/
theorem revmodel_mix_eq_replace_add (sf : Freeverb) (sd : Dattorro)
    (sl : Lexverb) (ins Ls Rs : List ℚ) :
    (freeverb_processmix sf ins Ls Rs =
      (List.zipWith (· + ·) Ls
          (freeverb_processreplace sf ins (List.replicate Ls.length 0)
            (List.replicate Rs.length 0)).1,
        List.zipWith (· + ·) Rs
          (freeverb_processreplace sf ins (List.replicate Ls.length 0)
            (List.replicate Rs.length 0)).2.1,
        (freeverb_processreplace sf ins (List.replicate Ls.length 0)
          (List.replicate Rs.length 0)).2.2)) ∧
    (dattorro_processmix sd ins Ls Rs =
      (List.zipWith (· + ·) Ls
          (dattorro_processreplace sd ins (List.replicate Ls.length 0)
            (List.replicate Rs.length 0)).1,
        List.zipWith (· + ·) Rs
          (dattorro_processreplace sd ins (List.replicate Ls.length 0)
            (List.replicate Rs.length 0)).2.1,
        (dattorro_processreplace sd ins (List.replicate Ls.length 0)
          (List.replicate Rs.length 0)).2.2)) ∧
    (lexverb_processmix sl ins Ls Rs =
      (List.zipWith (· + ·) Ls
          (lexverb_processreplace sl ins (List.replicate Ls.length 0)
            (List.replicate Rs.length 0)).1,
        List.zipWith (· + ·) Rs
          (lexverb_processreplace sl ins (List.replicate Ls.length 0)
            (List.replicate Rs.length 0)).2.1,
        (lexverb_processreplace sl ins (List.replicate Ls.length 0)
          (List.replicate Rs.length 0)).2.2)) := by
  refine ⟨?_, ?_, ?_⟩
  · exact processBlock_mix_eq_replace_add freeverb_step sf ins Ls Rs
  · exact processBlock_mix_eq_replace_add dattorro_step sd ins Ls Rs
  · by_cases h : sl.valid
    · simp only [lexverb_processmix, lexverb_processreplace, if_pos h]
      exact processBlock_mix_eq_replace_add lexverb_step sl ins Ls Rs
    · simp only [lexverb_processmix, lexverb_processreplace, if_neg h]
      simp [zipWith_add_replicate_zero]

/-! ## Claim C4: timing of the cross-coupled feedback reads -/

/-- `all_pass_filter` caches its return value in `out_data`. -/
theorem all_pass_filter_out_data (ap : LexStage) :
    (all_pass_filter ap).2.out_data = (all_pass_filter ap).1 := by
  simp [all_pass_filter]

/-- The Lexverb left chain does not touch the `dl0` cross-delay. -/
theorem lexverb_left_chain_dl0 (sl : Lexverb) (x : ℚ) :
    (lexverb_left_chain sl x).2.dl0 = sl.dl0 := by
  simp [lexverb_left_chain]

/-- After the left chain, AP4's cached `out_data` is the chain's output. -/
theorem lexverb_left_chain_ap4_out (sl : Lexverb) (x : ℚ) :
    (lexverb_left_chain sl x).2.ap4.out_data = (lexverb_left_chain sl x).1 := by
  simp [lexverb_left_chain, all_pass_filter]

/-- C4 counterexample: the second-computed chain reads a cross value
produced earlier in the *same* sample.  In Dattorro, the right tank's read
of `tank_delay[1]` yields 7 (the value this sample's `process` just
returned) although the previous sample's cached `last_output` is 0.  In
Lexverb, `dl0` latches AP4's `out_data` as freshly written this sample
(9), not the stored previous-sample value (0). -/
theorem cross_feedback_same_sample_read :
    dattorro_right_cross_read dattorro_cross_demo 0 ≠
      dattorro_cross_demo.tank_delay1.last_output ∧
    (fluid_lexverb_process_sample lexverb_cross_demo 0).2.2.dl0 ≠
      (lex_delay { lexverb_cross_demo.dl0 with
        in_data := lexverb_cross_demo.ap4.out_data }).2 := by
  constructor
  · simp only [dattorro_right_cross_read, dattorro_front, dattorro_left_tank,
      dattorro_cross_demo, Allpass.process, DelayLine.process, DelayLine.read,
      DelayLine.write, DelayLine.advance, DelayLine.advance_single_tap,
      DelayLine.size, DATTORRO_TRIM]
    norm_num
  · intro h
    have h9 : (fluid_lexverb_process_sample lexverb_cross_demo 0).2.2.dl0.in_data = 9 := by
      simp only [fluid_lexverb_process_sample, lexverb_left_chain, lexverb_right_chain,
        lexverb_cross_demo, all_pass_filter, lex_delay, LEX_TRIM]
      norm_num
    have h0 : (lex_delay { lexverb_cross_demo.dl0 with
        in_data := lexverb_cross_demo.ap4.out_data }).2.in_data = 0 := by
      simp [lex_delay, lexverb_cross_demo]
    rw [h, h0] at h9
    exact absurd h9 (by norm_num)

/-- C4 amended: the first-computed chain's cross read does use the previous
sample's cached output (Dattorro's left tank reads `tank_delay[3]`'s
stored `last_output`; Lexverb's `dl1` latches AP9's stored `out_data`),
but the second-computed chain reads the value produced earlier in the same
sample: Dattorro's right tank obtains the sample `tank_delay[1].process`
returned this sample (the pre-advance cell at `line_out`), and Lexverb's
`dl0` latches the output AP4 just produced this sample. -/
theorem cross_feedback_read_timing (sd : Dattorro) (y : ℚ) (sl : Lexverb) (x : ℚ) :
    dattorro_left_cross_read sd y = sd.tank_delay3.last_output ∧
    dattorro_right_cross_read sd y = sd.tank_delay1.read ∧
    (fluid_lexverb_process_sample sl x).2.2.dl1 =
      (lex_delay { sl.dl1 with in_data := sl.ap9.out_data }).2 ∧
    (fluid_lexverb_process_sample sl x).2.2.dl0 =
      (lex_delay { sl.dl0 with in_data := (lexverb_left_chain sl x).1 }).2 := by
  refine ⟨?_, ?_, ?_, ?_⟩
  · simp [dattorro_left_cross_read, dattorro_front]
  · simp [dattorro_right_cross_read, dattorro_front, dattorro_left_tank,
      DelayLine.process, DelayLine.read, DelayLine.write, DelayLine.advance,
      DelayLine.advance_single_tap, DelayLine.size]
  · rfl
  · simp only [fluid_lexverb_process_sample, lexverb_right_chain]
    simp [lexverb_left_chain_dl0, lexverb_left_chain_ap4_out]

/-! ## Claim C8: zero input propagates to zero output after reset -/

/-- Reading any position of an all-zero buffer yields 0. -/
theorem getD_all_zero {l : List ℚ} (h : ∀ q ∈ l, q = 0) (i : Nat) :
    l.getD i 0 = 0 := by
  rcases lt_or_ge i l.length with hi | hi
  · rw [List.getD_eq_getElem _ _ hi]
    exact h _ (List.getElem_mem hi)
  · exact List.getD_eq_default _ _ hi

/-- Writing 0 into an all-zero buffer keeps it all-zero. -/
theorem set_all_zero {l : List ℚ} (h : ∀ q ∈ l, q = 0) (i : Nat) :
    ∀ q ∈ l.set i 0, q = 0 := fun q hq =>
  (List.mem_or_eq_of_mem_set hq).elim (h q) id

/-- A Schroeder/Freeverb stage with an all-zero buffer and zero input
outputs 0 and stays all-zero. -/
theorem apf_zero (st : LexStage) (h : ∀ q ∈ st.buf, q = 0) (hin : st.in_data = 0) :
    (all_pass_filter st).1 = 0 ∧
      (∀ q ∈ (all_pass_filter st).2.buf, q = 0) ∧
      (all_pass_filter st).2.out_data = 0 := by
  have hb : st.buf.getD st.out_pos 0 = 0 := getD_all_zero h _
  refine ⟨?_, ?_, ?_⟩
  · simp only [all_pass_filter]
    rw [hb, hin]
    ring
  · simp only [all_pass_filter]
    rw [hb, hin]
    simpa using set_all_zero h st.out_pos
  · simp only [all_pass_filter]
    rw [hb, hin]
    ring

/-- A cross-delay stage with an all-zero buffer and zero input outputs 0
and stays all-zero. -/
theorem lex_delay_zero (dl : LexStage) (h : ∀ q ∈ dl.buf, q = 0) (hin : dl.in_data = 0) :
    (lex_delay dl).1 = 0 ∧
      (∀ q ∈ (lex_delay dl).2.buf, q = 0) ∧
      (lex_delay dl).2.out_data = 0 := by
  have hb : dl.buf.getD dl.out_pos 0 = 0 := getD_all_zero h _
  refine ⟨?_, ?_, ?_⟩
  · simp only [lex_delay]
    rw [hb]
  · simp only [lex_delay]
    rw [hin]
    simpa using set_all_zero h dl.out_pos
  · simp only [lex_delay]
    rw [hb]

/-- The Lexverb left chain maps a silent state and zero input to zero
output and a silent state. -/
theorem lexverb_left_chain_zero (s : Lexverb) (h : LexverbZero s) :
    (lexverb_left_chain s 0).1 = 0 ∧ LexverbZero (lexverb_left_chain s 0).2 := by
  obtain ⟨h0, h1, h2, h3, h4, h5, h6, h7, h8, h9, hd0, hd1, hsl, hsr⟩ := h
  simp only [lexverb_left_chain, zero_mul]
  have A0 := apf_zero { s.ap0 with in_data := 0 } h0.1 rfl
  rw [A0.1, h9.2]
  have D1 := lex_delay_zero { s.dl1 with in_data := 0 } hd1.1 rfl
  have A1 := apf_zero { s.ap1 with in_data := 0 } h1.1 rfl
  rw [A1.1, D1.1, zero_mul, add_zero]
  have A2 := apf_zero { s.ap2 with in_data := 0 } h2.1 rfl
  rw [A2.1]
  have A3 := apf_zero { s.ap3 with in_data := 0 } h3.1 rfl
  rw [A3.1]
  have A4 := apf_zero { s.ap4 with in_data := 0 } h4.1 rfl
  rw [A4.1]
  exact ⟨rfl, ⟨A0.2.1, A0.2.2⟩, ⟨A1.2.1, A1.2.2⟩, ⟨A2.2.1, A2.2.2⟩,
    ⟨A3.2.1, A3.2.2⟩, ⟨A4.2.1, A4.2.2⟩, h5, h6, h7, h8, h9, hd0,
    ⟨D1.2.1, D1.2.2⟩, hsl, hsr⟩

/-- The Lexverb right chain maps a silent state and zero input to zero
output and a silent state. -/
theorem lexverb_right_chain_zero (s : Lexverb) (h : LexverbZero s) :
    (lexverb_right_chain s 0).1 = 0 ∧ LexverbZero (lexverb_right_chain s 0).2 := by
  obtain ⟨h0, h1, h2, h3, h4, h5, h6, h7, h8, h9, hd0, hd1, hsl, hsr⟩ := h
  simp only [lexverb_right_chain, zero_mul]
  have A5 := apf_zero { s.ap5 with in_data := 0 } h5.1 rfl
  rw [A5.1, h4.2]
  have D0 := lex_delay_zero { s.dl0 with in_data := 0 } hd0.1 rfl
  have A6 := apf_zero { s.ap6 with in_data := 0 } h6.1 rfl
  rw [A6.1, D0.1, zero_mul, add_zero]
  have A7 := apf_zero { s.ap7 with in_data := 0 } h7.1 rfl
  rw [A7.1]
  have A8 := apf_zero { s.ap8 with in_data := 0 } h8.1 rfl
  rw [A8.1]
  have A9 := apf_zero { s.ap9 with in_data := 0 } h9.1 rfl
  rw [A9.1]
  exact ⟨rfl, h0, h1, h2, h3, h4, ⟨A5.2.1, A5.2.2⟩, ⟨A6.2.1, A6.2.2⟩,
    ⟨A7.2.1, A7.2.2⟩, ⟨A8.2.1, A8.2.2⟩, ⟨A9.2.1, A9.2.2⟩,
    ⟨D0.2.1, D0.2.2⟩, hd1, hsl, hsr⟩

/-- `fluid_lexverb_process_sample` maps a silent state and zero input to
zero outputs and a silent state. -/
theorem lexverb_process_sample_zero (s : Lexverb) (h : LexverbZero s) :
    (fluid_lexverb_process_sample s 0).1 = 0 ∧
      (fluid_lexverb_process_sample s 0).2.1 = 0 ∧
      LexverbZero (fluid_lexverb_process_sample s 0).2.2 := by
  have L := lexverb_left_chain_zero s h
  have R := lexverb_right_chain_zero (lexverb_left_chain s 0).2 L.2
  have hsl : s.damp_state_left = 0 := h.2.2.2.2.2.2.2.2.2.2.2.2.1
  have hsr : s.damp_state_right = 0 := h.2.2.2.2.2.2.2.2.2.2.2.2.2
  simp only [fluid_lexverb_process_sample]
  rw [L.1, R.1, hsl, hsr]
  constructor
  · split
    · ring
    · rfl
  constructor
  · split
    · ring
    · rfl
  · obtain ⟨r0, r1, r2, r3, r4, r5, r6, r7, r8, r9, rd0, rd1, _, _⟩ := R.2
    refine ⟨r0, r1, r2, r3, r4, r5, r6, r7, r8, r9, rd0, rd1, ?_, ?_⟩ <;>
      · show (if 0 < s.damp then _ else _) = 0
        split
        · ring
        · rfl

/-- One `lexverb_step` iteration on a silent state and zero input yields
zero wet outputs and a silent state. -/
theorem lexverb_step_zero (s : Lexverb) (h : LexverbZero s) :
    (lexverb_step s 0).1 = 0 ∧ (lexverb_step s 0).2.1 = 0 ∧
      LexverbZero (lexverb_step s 0).2.2 := by
  obtain ⟨p1, p2, p3⟩ := lexverb_process_sample_zero s h
  simp only [lexverb_step]
  rw [p1, p2]
  exact ⟨by ring, by ring, p3⟩

/-- `fluid_lexverb_clear_blocks` always produces a silent state. -/
theorem lexverb_clear_blocks_zero (s : Lexverb) :
    LexverbZero (fluid_lexverb_clear_blocks s) := by
  refine ⟨?_, ?_, ?_, ?_, ?_, ?_, ?_, ?_, ?_, ?_, ?_, ?_, rfl, rfl⟩ <;>
    · refine ⟨?_, rfl⟩
      intro q hq
      simp only [fluid_lexverb_clear_blocks, lexverb_stage_clear, List.mem_map] at hq
      obtain ⟨_, _, hq⟩ := hq
      exact hq.symm

/-- Generic zero-propagation over a replace-mode block: if a step maps
`P`-states and zero input to zero outputs and a `P`-state, then a block of
zero inputs writes only zeros. -/
theorem processBlock_zero_outputs {S : Type} (step : S → ℚ → ℚ × ℚ × S)
    (P : S → Prop)
    (hstep : ∀ s, P s → (step s 0).1 = 0 ∧ (step s 0).2.1 = 0 ∧ P (step s 0).2.2)
    (K : Nat) :
    ∀ (s : S) (Ls Rs : List ℚ), P s →
      (∀ q ∈ (processBlock step false s (List.replicate K 0) Ls Rs).1, q = 0) ∧
      (∀ q ∈ (processBlock step false s (List.replicate K 0) Ls Rs).2.1, q = 0) := by
  induction K with
  | zero => intro s Ls Rs _; simp [processBlock]
  | succ K ih =>
      intro s Ls Rs hP
      cases Ls with
      | nil => simp [processBlock, List.replicate_succ]
      | cons l0 Ls =>
          cases Rs with
          | nil => simp [processBlock, List.replicate_succ]
          | cons r0 Rs =>
              obtain ⟨e1, e2, e3⟩ := hstep s hP
              have IH := ih (step s 0).2.2 Ls Rs e3
              simp only [List.replicate_succ, processBlock, Bool.false_eq_true,
                if_false]
              constructor
              · intro q hq
                rcases List.mem_cons.mp hq with hq | hq
                · exact hq.trans e1
                · exact IH.1 q hq
              · intro q hq
                rcases List.mem_cons.mp hq with hq | hq
                · exact hq.trans e2
                · exact IH.2 q hq

/-- A delay line with all-zero cells maps zero input to zero output and an
all-zero state. -/
theorem delay_process_zero (d : DelayLine) (h : ∀ q ∈ d.line, q = 0) :
    (d.process 0).1 = 0 ∧ DelayZero (d.process 0).2 := by
  have hb : d.line.getD d.line_out 0 = 0 := getD_all_zero h _
  refine ⟨?_, ?_, ?_⟩
  · simp only [DelayLine.process, DelayLine.read]
    rw [hb]
  · simp only [DelayLine.process, DelayLine.read, DelayLine.write,
      DelayLine.advance_single_tap, DelayLine.advance]
    exact set_all_zero h d.line_out
  · simp only [DelayLine.process, DelayLine.read]
    rw [hb]

/-- An allpass with all-zero delay cells maps zero input to zero output
and an all-zero state. -/
theorem allpass_process_zero (a : Allpass) (h : AllpassZero a) :
    (Allpass.process 0 a).1 = 0 ∧ AllpassZero (Allpass.process 0 a).2 := by
  have hb : a.delay.line.getD a.delay.line_out 0 = 0 := getD_all_zero h _
  constructor
  · simp only [Allpass.process, DelayLine.read]
    rw [hb]
    cases a.mode <;> simp
  · simp only [AllpassZero, Allpass.process, DelayLine.read, DelayLine.write,
      DelayLine.advance_single_tap, DelayLine.advance]
    rw [hb, zero_mul, add_zero]
    exact set_all_zero h a.delay.line_out

/-- Tap reads from an all-zero delay line yield 0. -/
theorem read_tap_zero (d : DelayLine) (h : ∀ q ∈ d.line, q = 0) (t : Nat) :
    fluid_dattorro_read_tap d t = 0 := by
  unfold fluid_dattorro_read_tap
  split
  · rfl
  · exact getD_all_zero h _

/-- The Dattorro front half maps a silent state and zero input to zero
split and a silent state. -/
theorem dattorro_front_zero (s : Dattorro) (h : DattorroZero s) :
    (dattorro_front s 0).1 = 0 ∧ DattorroZero (dattorro_front s 0).2 := by
  obtain ⟨hp, hi0, hi1, hi2, hi3, ht0, ht1, ht2, ht3, hd0, hd1, hd2, hd3, hbw, hsl, hsr⟩ := h
  simp only [dattorro_front, zero_mul]
  have P := delay_process_zero s.predelay hp
  rw [P.1, hbw]
  have hbw0 : (0 : ℚ) + s.bandwidth * (0 - 0) = 0 := by ring
  rw [hbw0]
  have A0 := allpass_process_zero s.input_ap0 hi0
  rw [A0.1]
  have A1 := allpass_process_zero s.input_ap1 hi1
  rw [A1.1]
  have A2 := allpass_process_zero s.input_ap2 hi2
  rw [A2.1]
  have A3 := allpass_process_zero s.input_ap3 hi3
  rw [A3.1]
  exact ⟨rfl, P.2.1, A0.2, A1.2, A2.2, A3.2, ht0, ht1, ht2, ht3,
    hd0, hd1, hd2, hd3, rfl, hsl, hsr⟩

/-- The Dattorro left tank maps a silent state and zero split to a silent
state. -/
theorem dattorro_left_tank_zero (s : Dattorro) (h : DattorroZero s) :
    DattorroZero (dattorro_left_tank s 0) := by
  obtain ⟨hp, hi0, hi1, hi2, hi3, ht0, ht1, ht2, ht3, hd0, hd1, hd2, hd3, hbw, hsl, hsr⟩ := h
  simp only [dattorro_left_tank]
  rw [hd3.2, hsl]
  have hz1 : (0 : ℚ) + s.decay * 0 = 0 := by ring
  rw [hz1]
  have T0 := allpass_process_zero s.tank_ap0 ht0
  rw [T0.1]
  have D0 := delay_process_zero s.tank_delay0 hd0.1
  rw [D0.1]
  have hz2 : (0 : ℚ) + (1 - s.damp) * (0 - 0) = 0 := by ring
  rw [hz2, mul_zero]
  have T1 := allpass_process_zero s.tank_ap1 ht1
  rw [T1.1]
  have D1 := delay_process_zero s.tank_delay1 hd1.1
  exact ⟨hp, hi0, hi1, hi2, hi3, T0.2, T1.2, ht2, ht3, D0.2, D1.2,
    hd2, hd3, hbw, rfl, hsr⟩

/-- The Dattorro right tank maps a silent state and zero split to a silent
state. -/
theorem dattorro_right_tank_zero (s : Dattorro) (h : DattorroZero s) :
    DattorroZero (dattorro_right_tank s 0) := by
  obtain ⟨hp, hi0, hi1, hi2, hi3, ht0, ht1, ht2, ht3, hd0, hd1, hd2, hd3, hbw, hsl, hsr⟩ := h
  simp only [dattorro_right_tank]
  rw [hd1.2, hsr]
  have hz1 : (0 : ℚ) + s.decay * 0 = 0 := by ring
  rw [hz1]
  have T2 := allpass_process_zero s.tank_ap2 ht2
  rw [T2.1]
  have D2 := delay_process_zero s.tank_delay2 hd2.1
  rw [D2.1]
  have hz2 : (0 : ℚ) + (1 - s.damp) * (0 - 0) = 0 := by ring
  rw [hz2, mul_zero]
  have T3 := allpass_process_zero s.tank_ap3 ht3
  rw [T3.1]
  have D3 := delay_process_zero s.tank_delay3 hd3.1
  exact ⟨hp, hi0, hi1, hi2, hi3, ht0, ht1, T2.2, T3.2, hd0, hd1,
    D2.2, D3.2, hbw, hsl, rfl⟩

/-- The fourteen tap readouts of a silent state are all zero. -/
theorem dattorro_tap_outs_zero (s : Dattorro) (h : DattorroZero s) :
    (dattorro_tap_outs s).1 = 0 ∧ (dattorro_tap_outs s).2 = 0 := by
  obtain ⟨hp, hi0, hi1, hi2, hi3, ht0, ht1, ht2, ht3, hd0, hd1, hd2, hd3, hbw, hsl, hsr⟩ := h
  simp only [dattorro_tap_outs, fluid_dattorro_read_tap_ap]
  simp only [read_tap_zero _ hd0.1, read_tap_zero _ hd1.1, read_tap_zero _ hd2.1,
    read_tap_zero _ hd3.1, read_tap_zero _ ht1, read_tap_zero _ ht3]
  constructor <;> ring

/-- One `dattorro_step` iteration on a silent state and zero input yields
zero wet outputs and a silent state. -/
theorem dattorro_step_zero (s : Dattorro) (h : DattorroZero s) :
    (dattorro_step s 0).1 = 0 ∧ (dattorro_step s 0).2.1 = 0 ∧
      DattorroZero (dattorro_step s 0).2.2 := by
  have F := dattorro_front_zero s h
  simp only [dattorro_step]
  rw [F.1]
  have L := dattorro_left_tank_zero (dattorro_front s 0).2 F.2
  have R := dattorro_right_tank_zero _ L
  have T := dattorro_tap_outs_zero _ R
  rw [T.1, T.2]
  exact ⟨by ring, by ring, R⟩

/-- `dattorro_reset` always produces a silent state. -/
theorem dattorro_reset_zero (s : Dattorro) : DattorroZero (dattorro_reset s) := by
  have hfill : ∀ d : DelayLine,
      ∀ q ∈ (if d.line ≠ [] then (d.fill_buffer 0).set_single_tap_position 0
        else d).line, q = 0 := by
    intro d q hq
    by_cases hd : d.line ≠ []
    · rw [if_pos hd] at hq
      simp only [DelayLine.fill_buffer, DelayLine.set_single_tap_position,
        List.mem_map] at hq
      obtain ⟨_, _, hq⟩ := hq
      exact hq.symm
    · rw [if_neg hd] at hq
      rw [not_not] at hd
      rw [hd] at hq
      cases hq
  have hfillA : ∀ a : Allpass,
      ∀ q ∈ ((if a.delay.line ≠ [] then (a.fill_buffer 0).set_index 0
        else a).set_last_output 0).delay.line, q = 0 := by
    intro a q hq
    simp only [Allpass.set_last_output] at hq
    by_cases hd : a.delay.line ≠ []
    · rw [if_pos hd] at hq
      simp only [Allpass.fill_buffer, Allpass.set_index, DelayLine.fill_buffer,
        DelayLine.set_single_tap_position, List.mem_map] at hq
      obtain ⟨_, _, hq⟩ := hq
      exact hq.symm
    · rw [if_neg hd] at hq
      rw [not_not] at hd
      rw [hd] at hq
      cases hq
  simp only [dattorro_reset]
  exact ⟨hfill s.predelay, hfillA s.input_ap0, hfillA s.input_ap1,
    hfillA s.input_ap2, hfillA s.input_ap3, hfillA s.tank_ap0,
    hfillA s.tank_ap1, hfillA s.tank_ap2, hfillA s.tank_ap3,
    ⟨hfill s.tank_delay0, rfl⟩, ⟨hfill s.tank_delay1, rfl⟩,
    ⟨hfill s.tank_delay2, rfl⟩, ⟨hfill s.tank_delay3, rfl⟩, rfl, rfl, rfl⟩

/-- C8: after `reset`, feeding any number of zero samples through
`process_replace` writes exactly zero to every output sample of both
channels, for the Lexverb (when its `valid` flag is set, so that `reset`
and processing act) and Dattorro models, regardless of the previous
contents of the internal state or of the output buffers. -/
theorem reset_zero_in_zero_out (sl : Lexverb) (sd : Dattorro) (K : Nat)
    (Ls Rs Ls2 Rs2 : List ℚ) (h : sl.valid = true) :
    (∀ q ∈ (lexverb_processreplace (lexverb_reset sl) (List.replicate K 0) Ls Rs).1, q = 0) ∧
      (∀ q ∈ (lexverb_processreplace (lexverb_reset sl) (List.replicate K 0) Ls Rs).2.1, q = 0) ∧
      (∀ q ∈ (dattorro_processreplace (dattorro_reset sd) (List.replicate K 0) Ls2 Rs2).1, q = 0) ∧
      (∀ q ∈ (dattorro_processreplace (dattorro_reset sd) (List.replicate K 0) Ls2 Rs2).2.1, q = 0) := by
  have hres : lexverb_reset sl = fluid_lexverb_clear_blocks sl := by
    simp [lexverb_reset, h]
  have hval : (lexverb_reset sl).valid = true := by
    rw [hres]
    simpa [fluid_lexverb_clear_blocks] using h
  have hlex := processBlock_zero_outputs lexverb_step LexverbZero
    lexverb_step_zero K (lexverb_reset sl) Ls Rs
    (hres ▸ lexverb_clear_blocks_zero sl)
  have hdat := processBlock_zero_outputs dattorro_step DattorroZero
    dattorro_step_zero K (dattorro_reset sd) Ls2 Rs2 (dattorro_reset_zero sd)
  refine ⟨?_, ?_, hdat.1, hdat.2⟩ <;>
    · simp only [lexverb_processreplace, if_pos hval]
      first
        | exact hlex.1
        | exact hlex.2

/-- Witness for C8 at concrete states, block length and buffers. -/
theorem reset_zero_in_zero_out_witness :
    (∀ q ∈ (lexverb_processreplace (lexverb_reset lexverb_demo)
        (List.replicate 2 0) [1, 2] [3, 4]).1, q = 0) ∧
      (∀ q ∈ (lexverb_processreplace (lexverb_reset lexverb_demo)
          (List.replicate 2 0) [1, 2] [3, 4]).2.1, q = 0) ∧
      (∀ q ∈ (dattorro_processreplace (dattorro_reset dattorro_cross_demo)
          (List.replicate 2 0) [5, 6] [7, 8]).1, q = 0) ∧
      (∀ q ∈ (dattorro_processreplace (dattorro_reset dattorro_cross_demo)
          (List.replicate 2 0) [5, 6] [7, 8]).2.1, q = 0) :=
  reset_zero_in_zero_out lexverb_demo dattorro_cross_demo 2 [1, 2] [3, 4]
    [5, 6] [7, 8] (by decide)

/-! ## Claim C2: parameter clamping in `set` -/

/-- `fluid_clip` lands in `[lo, hi]` whenever `lo ≤ hi`. -/
theorem fluid_clip_bounds (v lo hi : ℚ) (h : lo ≤ hi) :
    lo ≤ fluid_clip v lo hi ∧ fluid_clip v lo hi ≤ hi := by
  unfold fluid_clip
  split_ifs with h1 h2
  · exact ⟨le_refl lo, h⟩
  · exact ⟨h, le_refl hi⟩
  · exact ⟨le_of_not_lt h1, le_of_not_lt h2⟩

/-- The `roomsize` stored by Lexverb's `set`. -/
theorem lexverb_set_roomsize (s : Lexverb) (m : Nat) (r d w l : ℚ) :
    (lexverb_set s m r d w l).roomsize =
      (if m &&& FLUID_REVMODEL_SET_ROOMSIZE ≠ 0 then fluid_clip r 0 1 else s.roomsize) := by
  simp only [lexverb_set, fluid_lexverb_update]
  split_ifs <;> rfl

/-- The `damp` stored by Lexverb's `set`. -/
theorem lexverb_set_damp (s : Lexverb) (m : Nat) (r d w l : ℚ) :
    (lexverb_set s m r d w l).damp =
      (if m &&& FLUID_REVMODEL_SET_DAMPING ≠ 0 then fluid_clip d 0 1 else s.damp) := by
  simp only [lexverb_set, fluid_lexverb_update]
  split_ifs <;> rfl

/-- The `width` stored by Lexverb's `set`. -/
theorem lexverb_set_width (s : Lexverb) (m : Nat) (r d w l : ℚ) :
    (lexverb_set s m r d w l).width =
      (if m &&& FLUID_REVMODEL_SET_WIDTH ≠ 0 then fluid_clip w 0 100 else s.width) := by
  simp only [lexverb_set, fluid_lexverb_update]
  split_ifs <;> rfl

/-- The `level` stored by Lexverb's `set`. -/
theorem lexverb_set_level (s : Lexverb) (m : Nat) (r d w l : ℚ) :
    (lexverb_set s m r d w l).level =
      (if m &&& FLUID_REVMODEL_SET_LEVEL ≠ 0 then fluid_clip l 0 1 else s.level) := by
  simp only [lexverb_set, fluid_lexverb_update]
  split_ifs <;> rfl

/-- The `roomsize` stored by Dattorro's `set`. -/
theorem dattorro_set_roomsize (s : Dattorro) (m : Nat) (r d w l : ℚ) :
    (dattorro_set s m r d w l).roomsize =
      (if m &&& FLUID_REVMODEL_SET_ROOMSIZE ≠ 0 then fluid_clip r 0 1 else s.roomsize) := by
  simp only [dattorro_set, dattorro_update]
  split_ifs <;> rfl

/-- The `damp` stored by Dattorro's `set`. -/
theorem dattorro_set_damp (s : Dattorro) (m : Nat) (r d w l : ℚ) :
    (dattorro_set s m r d w l).damp =
      (if m &&& FLUID_REVMODEL_SET_DAMPING ≠ 0 then fluid_clip d 0 1 else s.damp) := by
  simp only [dattorro_set, dattorro_update]
  split_ifs <;> rfl

/-- The `width` stored by Dattorro's `set`. -/
theorem dattorro_set_width (s : Dattorro) (m : Nat) (r d w l : ℚ) :
    (dattorro_set s m r d w l).width =
      (if m &&& FLUID_REVMODEL_SET_WIDTH ≠ 0 then fluid_clip w 0 100 else s.width) := by
  simp only [dattorro_set, dattorro_update]
  split_ifs <;> rfl

/-- The `level` stored by Dattorro's `set`. -/
theorem dattorro_set_level (s : Dattorro) (m : Nat) (r d w l : ℚ) :
    (dattorro_set s m r d w l).level =
      (if m &&& FLUID_REVMODEL_SET_LEVEL ≠ 0 then fluid_clip l 0 1 else s.level) := by
  simp only [dattorro_set, dattorro_update]
  split_ifs <;> rfl

/-- The `roomsize` stored by Freeverb's `set` (mapped, not the raw value). -/
theorem freeverb_set_roomsize (s : Freeverb) (m : Nat) (r d w l : ℚ) :
    (freeverb_set s m r d w l).roomsize =
      (if m &&& FLUID_REVMODEL_SET_ROOMSIZE ≠ 0
        then fluid_clip r 0 1 * scaleroom + offsetroom else s.roomsize) := by
  simp only [freeverb_set, freeverb_update]
  split_ifs <;> rfl

/-- The `damp` stored by Freeverb's `set` (no clamping). -/
theorem freeverb_set_damp (s : Freeverb) (m : Nat) (r d w l : ℚ) :
    (freeverb_set s m r d w l).damp =
      (if m &&& FLUID_REVMODEL_SET_DAMPING ≠ 0 then d * scaledamp else s.damp) := by
  simp only [freeverb_set, freeverb_update]
  split_ifs <;> rfl

/-- The `width` stored by Freeverb's `set` (no clamping). -/
theorem freeverb_set_width (s : Freeverb) (m : Nat) (r d w l : ℚ) :
    (freeverb_set s m r d w l).width =
      (if m &&& FLUID_REVMODEL_SET_WIDTH ≠ 0 then w else s.width) := by
  simp only [freeverb_set, freeverb_update]
  split_ifs <;> rfl

/-- The `level` stored by Freeverb's `set`. -/
theorem freeverb_set_level (s : Freeverb) (m : Nat) (r d w l : ℚ) :
    (freeverb_set s m r d w l).level =
      (if m &&& FLUID_REVMODEL_SET_LEVEL ≠ 0 then fluid_clip l 0 1 else s.level) := by
  simp only [freeverb_set, freeverb_update]
  split_ifs <;> rfl

/-- C2 counterexample: Freeverb's `set` stores an out-of-range `width`
verbatim.  Selecting only the width with the value 200 stores 200, which
is not in `[0, 100]`.  (Its `damp` store is likewise unclamped.) -/
theorem freeverb_set_width_unclamped :
    (freeverb_set freeverb_demo FLUID_REVMODEL_SET_WIDTH 0 0 200 0).width = 200 ∧
      ¬ (freeverb_set freeverb_demo FLUID_REVMODEL_SET_WIDTH 0 0 200 0).width ≤ 100 := by
  have h : (freeverb_set freeverb_demo FLUID_REVMODEL_SET_WIDTH 0 0 200 0).width = 200 := by
    rw [freeverb_set_width, if_pos (by decide)]
  refine ⟨h, ?_⟩
  rw [h]
  norm_num

/-- C2 amended: Lexverb and Dattorro clamp every selected parameter to its
declared range before storing (`roomsize`, `damping`, `level` to `[0, 1]`,
`width` to `[0, 100]`).  Freeverb clamps only `roomsize` (storing the
mapped value `clamp(roomsize)·0.28 + 0.7 ∈ [0.7, 0.98] ⊆ [0, 1]`) and
`level`; its stored `damping` is the raw `damping · scaledamp` and its
stored `width` is the raw argument, both unclamped. -/
theorem set_params_clamping (sl : Lexverb) (sd : Dattorro) (sf : Freeverb)
    (mask : Nat) (r d w l : ℚ) :
    ((mask &&& FLUID_REVMODEL_SET_ROOMSIZE ≠ 0 →
        (0 ≤ (lexverb_set sl mask r d w l).roomsize ∧
          (lexverb_set sl mask r d w l).roomsize ≤ 1) ∧
        (0 ≤ (dattorro_set sd mask r d w l).roomsize ∧
          (dattorro_set sd mask r d w l).roomsize ≤ 1) ∧
        (7 / 10 ≤ (freeverb_set sf mask r d w l).roomsize ∧
          (freeverb_set sf mask r d w l).roomsize ≤ 49 / 50)) ∧
      (mask &&& FLUID_REVMODEL_SET_DAMPING ≠ 0 →
        (0 ≤ (lexverb_set sl mask r d w l).damp ∧
          (lexverb_set sl mask r d w l).damp ≤ 1) ∧
        (0 ≤ (dattorro_set sd mask r d w l).damp ∧
          (dattorro_set sd mask r d w l).damp ≤ 1) ∧
        (freeverb_set sf mask r d w l).damp = d * scaledamp) ∧
      (mask &&& FLUID_REVMODEL_SET_WIDTH ≠ 0 →
        (0 ≤ (lexverb_set sl mask r d w l).width ∧
          (lexverb_set sl mask r d w l).width ≤ 100) ∧
        (0 ≤ (dattorro_set sd mask r d w l).width ∧
          (dattorro_set sd mask r d w l).width ≤ 100) ∧
        (freeverb_set sf mask r d w l).width = w) ∧
      (mask &&& FLUID_REVMODEL_SET_LEVEL ≠ 0 →
        (0 ≤ (lexverb_set sl mask r d w l).level ∧
          (lexverb_set sl mask r d w l).level ≤ 1) ∧
        (0 ≤ (dattorro_set sd mask r d w l).level ∧
          (dattorro_set sd mask r d w l).level ≤ 1) ∧
        (0 ≤ (freeverb_set sf mask r d w l).level ∧
          (freeverb_set sf mask r d w l).level ≤ 1))) := by
  refine ⟨?_, ?_, ?_, ?_⟩
  · intro h
    rw [lexverb_set_roomsize, dattorro_set_roomsize, freeverb_set_roomsize,
      if_pos h, if_pos h, if_pos h]
    have hc := fluid_clip_bounds r 0 1 (by norm_num)
    refine ⟨hc, hc, ?_, ?_⟩ <;> unfold scaleroom offsetroom <;> nlinarith [hc.1, hc.2]
  · intro h
    rw [lexverb_set_damp, dattorro_set_damp, freeverb_set_damp,
      if_pos h, if_pos h, if_pos h]
    have hc := fluid_clip_bounds d 0 1 (by norm_num)
    exact ⟨hc, hc, rfl⟩
  · intro h
    rw [lexverb_set_width, dattorro_set_width, freeverb_set_width,
      if_pos h, if_pos h, if_pos h]
    have hc := fluid_clip_bounds w 0 100 (by norm_num)
    exact ⟨hc, hc, rfl⟩
  · intro h
    rw [lexverb_set_level, dattorro_set_level, freeverb_set_level,
      if_pos h, if_pos h, if_pos h]
    have hc := fluid_clip_bounds l 0 1 (by norm_num)
    exact ⟨hc, hc, hc⟩

/-- Witness for the amended C2 with all four parameters selected and
out-of-range inputs. -/
theorem set_params_clamping_witness :
    (0 ≤ (lexverb_set lexverb_demo 15 5 (-3) 200 7).roomsize ∧
        (lexverb_set lexverb_demo 15 5 (-3) 200 7).roomsize ≤ 1) ∧
      (0 ≤ (dattorro_set dattorro_cross_demo 15 5 (-3) 200 7).width ∧
        (dattorro_set dattorro_cross_demo 15 5 (-3) 200 7).width ≤ 100) ∧
      (freeverb_set freeverb_demo 15 5 (-3) 200 7).width = 200 ∧
      (0 ≤ (lexverb_set lexverb_demo 15 5 (-3) 200 7).level ∧
        (lexverb_set lexverb_demo 15 5 (-3) 200 7).level ≤ 1) := by
  have H := set_params_clamping lexverb_demo dattorro_cross_demo freeverb_demo 15 5 (-3) 200 7
  exact ⟨(H.1 (by decide)).1, ((H.2.2.1 (by decide)).2.1),
    (H.2.2.1 (by decide)).2.2, (H.2.2.2 (by decide)).1⟩

/-! ## Claim C6: Lexverb stage buffer lengths -/

/-- C6 counterexample: for AP4 (19.31 ms) at the positive rate 48000 Hz
the code allocates 926 samples (truncation of 926.88) while the spec's
`round` formula gives 927; and for dl0 (8.71 ms) at rate 10 Hz the code
computes length 0, below the spec's 1-sample minimum. -/
theorem lexverb_buf_length_not_round :
    fluid_lexverb_ms_to_buf_length (LEX_REVERB_PARMS.getD 4 (0, 0)).1 48000 = 926 ∧
      spec_lexverb_buf_length (LEX_REVERB_PARMS.getD 4 (0, 0)).1 48000 = 927 ∧
      fluid_lexverb_ms_to_buf_length (LEX_REVERB_PARMS.getD 10 (0, 0)).1 10 = 0 ∧
      spec_lexverb_buf_length (LEX_REVERB_PARMS.getD 10 (0, 0)).1 10 = 1 := by
  have hm4 : (LEX_REVERB_PARMS.getD 4 (0, 0)).1 = (19.31 : ℚ) := rfl
  have hm10 : (LEX_REVERB_PARMS.getD 10 (0, 0)).1 = (8.71 : ℚ) := rfl
  rw [hm4, hm10]
  refine ⟨?_, ?_, ?_, ?_⟩
  · unfold fluid_lexverb_ms_to_buf_length cTrunc
    rw [if_pos (by norm_num)]
    have he : (19.31 : ℚ) * (48000 * (1 / 1000)) = 23172 / 25 := by norm_num
    rw [he]
    rw [Int.floor_eq_iff] <;> norm_num
  · unfold spec_lexverb_buf_length
    have he : (19.31 : ℚ) * 48000 / 1000 = 23172 / 25 := by norm_num
    rw [he, round_eq]
    have hf : ⌊(23172 / 25 : ℚ) + 1 / 2⌋ = 927 := by
      rw [Int.floor_eq_iff] <;> norm_num
    rw [hf]
    norm_num
  · unfold fluid_lexverb_ms_to_buf_length cTrunc
    rw [if_pos (by norm_num)]
    have he : (8.71 : ℚ) * (10 * (1 / 1000)) = 871 / 10000 := by norm_num
    rw [he]
    rw [Int.floor_eq_iff] <;> norm_num
  · unfold spec_lexverb_buf_length
    have he : (8.71 : ℚ) * 10 / 1000 = 871 / 10000 := by norm_num
    rw [he, round_eq]
    have hf : ⌊(871 / 10000 : ℚ) + 1 / 2⌋ = 0 := by
      rw [Int.floor_eq_iff] <;> norm_num
    rw [hf]
    norm_num

/-- C6 amended: for non-negative `ms` and sample rate the code computes
`⌊ms · sample_rate / 1000⌋` (truncation toward zero), never applying a
1-sample minimum; this differs from the spec's `round` by at most one
sample, below it. -/
theorem lexverb_buf_length_spec (ms sr : ℚ) (hm : 0 ≤ ms) (hs : 0 ≤ sr) :
    fluid_lexverb_ms_to_buf_length ms sr = ⌊ms * sr / 1000⌋ ∧
      round (ms * sr / 1000) - 1 ≤ fluid_lexverb_ms_to_buf_length ms sr ∧
      fluid_lexverb_ms_to_buf_length ms sr ≤ round (ms * sr / 1000) ∧
      round (ms * sr / 1000) ≤ spec_lexverb_buf_length ms sr := by
  have h1 : fluid_lexverb_ms_to_buf_length ms sr = ⌊ms * sr / 1000⌋ := by
    unfold fluid_lexverb_ms_to_buf_length cTrunc
    rw [if_pos (by positivity)]
    congr 1
    ring
  refine ⟨h1, ?_, ?_, le_max_right 1 _⟩
  · rw [h1, round_eq]
    have hle : ⌊ms * sr / 1000 + 1 / 2⌋ ≤ ⌊ms * sr / 1000 + 1⌋ :=
      Int.floor_le_floor (by norm_num)
    have heq : ⌊ms * sr / 1000 + 1⌋ = ⌊ms * sr / 1000⌋ + 1 := by
      exact_mod_cast Int.floor_add_int (ms * sr / 1000) 1
    omega
  · rw [h1, round_eq]
    exact Int.floor_le_floor (by norm_num)

/-- Witness for the amended C6 at AP4's millisecond length and 48000 Hz. -/
theorem lexverb_buf_length_spec_witness :
    fluid_lexverb_ms_to_buf_length (19.31 : ℚ) 48000 = ⌊(19.31 : ℚ) * 48000 / 1000⌋ ∧
      round ((19.31 : ℚ) * 48000 / 1000) - 1 ≤ fluid_lexverb_ms_to_buf_length (19.31 : ℚ) 48000 ∧
      fluid_lexverb_ms_to_buf_length (19.31 : ℚ) 48000 ≤ round ((19.31 : ℚ) * 48000 / 1000) ∧
      round ((19.31 : ℚ) * 48000 / 1000) ≤ spec_lexverb_buf_length (19.31 : ℚ) 48000 :=
  lexverb_buf_length_spec (19.31 : ℚ) 48000 (by norm_num) (by norm_num)

/-! ## Claim C3: factory failure behaviour -/

/-- Truncation of a non-positive value is non-positive. -/
theorem cTrunc_nonpos {q : ℚ} (h : q ≤ 0) : cTrunc q ≤ 0 := by
  unfold cTrunc
  split_ifs with h0
  · have hq : q = 0 := le_antisymm h h0
    simp [hq]
  · have h1 : (0 : ℚ) ≤ -q := by linarith
    have h2 := Int.floor_nonneg.mpr h1
    omega

/-- C3 counterexample: for the Lexverb type at the invalid sample rate −1
the factory returns a non-null model object whose `valid` flag is false:
a non-functional model is returned instead of null. -/
theorem factory_nonnull_invalid_lexverb :
    new_fluid_revmodel 44100 (-1) FLUID_REVERB_TYPE_LEXVERB =
      some (Revmodel.lexverb (lexverb_ctor (-1))) ∧
      (lexverb_ctor (-1)).valid = false := by
  constructor
  · rfl
  · decide

/-- C3 amended: a non-positive sample rate makes the factory return null
for the Freeverb and FDN types (their constructors throw, the factory
catches), but for the Lexverb type the factory returns a non-null model
whose `valid` flag is false (its constructor reports failure through the
flag instead of throwing); that object's processing operations are
no-ops. -/
theorem factory_construction_failure (srmax sr : ℚ) (h : sr ≤ 0) :
    new_fluid_revmodel srmax sr FLUID_REVERB_TYPE_FREEVERB = none ∧
      new_fluid_revmodel srmax sr FLUID_REVERB_TYPE_FDN = none ∧
      new_fluid_revmodel srmax sr FLUID_REVERB_TYPE_LEXVERB =
        some (Revmodel.lexverb (lexverb_ctor sr)) ∧
      (lexverb_ctor sr).valid = false := by
  refine ⟨?_, ?_, ?_, ?_⟩
  · have hlen : freeverb_buf_length 1116 sr ≤ 0 := by
      apply cTrunc_nonpos
      have hq : sr / 44100 ≤ 0 := div_nonpos_of_nonpos_of_nonneg h (by norm_num)
      exact mul_nonpos_of_nonneg_of_nonpos (by norm_num) hq
    have hmem : freeverb_buf_length 1116 sr ∈ freeverb_buf_lengths sr := by
      unfold freeverb_buf_lengths
      apply List.mem_map_of_mem
      simp [freeverb_comb_tunings]
    have hall : ¬ ((freeverb_buf_lengths sr).all (fun n => 1 ≤ n) = true) := by
      intro hall
      rw [List.all_eq_true] at hall
      have := of_decide_eq_true (hall _ hmem)
      omega
    simp only [new_fluid_revmodel, FLUID_REVERB_TYPE_FREEVERB, if_pos rfl]
    unfold freeverb_ctor
    rw [if_neg hall]
    rfl
  · simp only [new_fluid_revmodel, FLUID_REVERB_TYPE_FDN,
      FLUID_REVERB_TYPE_FREEVERB, FLUID_REVERB_TYPE_LEXVERB]
    norm_num
    unfold fdn_ctor dattorro_ctor
    rw [if_pos h]
  · simp only [new_fluid_revmodel, FLUID_REVERB_TYPE_LEXVERB,
      FLUID_REVERB_TYPE_FREEVERB]
    norm_num
  · unfold lexverb_ctor
    rw [if_pos h]

/-- Witness for the amended C3 at the concrete invalid rate −1. -/
theorem factory_construction_failure_witness :
    new_fluid_revmodel 48000 (-1) FLUID_REVERB_TYPE_FREEVERB = none ∧
      new_fluid_revmodel 48000 (-1) FLUID_REVERB_TYPE_FDN = none ∧
      new_fluid_revmodel 48000 (-1) FLUID_REVERB_TYPE_LEXVERB =
        some (Revmodel.lexverb (lexverb_ctor (-1))) ∧
      (lexverb_ctor (-1)).valid = false :=
  factory_construction_failure 48000 (-1) (by norm_num)

end Reverb
